import Mathlib

/-!
# Verification of the Luau constraint solver against its specification

A shallow embedding of `Analysis/src/ConstraintSolver.cpp`.  Types and type
packs live in an arena and are addressed by natural-number indices (standing
for the `TypeId` / `TypePackId` pointers of the source).  Pure helpers are
transcribed directly; collaborators that live outside this translation unit
(the `ApplyTypeFunction` substitution, `Substitution::clone`, `occursCheck`,
`Scope` lookups, the `TypePack` accessors `size`/`finite`/`first`, and the
`maybeSingleton` heuristic) are opaque services of the solver and are passed
in as explicit function parameters, so every theorem quantifies over their
behaviour.
-/

namespace LuauSolver

/-- Source location attached to constraints and diagnostics (`Location.h`).
Default-constructed locations are all zeroes. -/
structure Location where
  beginLine : Nat := 0
  beginColumn : Nat := 0
  endLine : Nat := 0
  endColumn : Nat := 0
deriving Repr, DecidableEq

/-- The default-constructed `Location{}`. -/
def Location.default : Location := {}

/-- Variants of a type node (`Type.h`).  Structural children are arena
indices.  `table` carries the `instantiatedTypeParams` /
`instantiatedTypePackParams` stamps mutated by alias expansion. -/
inductive LuauType where
  | bound (dest : Nat)
  | free (lowerBound upperBound : Nat)
  | blockedT (owner : Option Nat)
  | pendingExpansion (prefixName : Option String) (name : String)
      (typeArguments : List Nat) (packArguments : List Nat)
  | typeFamilyInstance (typeArguments : List Nat) (packArguments : List Nat)
  | localT (domain : Nat) (blockCount : Nat)
  | primitive (name : String)
  | singleton (value : String)
  | generic (name : String)
  | table (props : List (String × Nat))
      (instantiatedTypeParams : List Nat) (instantiatedTypePackParams : List Nat)
  | metatable (tbl mt : Nat)
  | functionT (argPack retPack : Nat)
  | unionT (parts : List Nat)
  | intersectionT (parts : List Nat)
  | classT (props : List (String × Nat))
  | anyT
  | unknownT
  | neverT
  | errorT
  | nilT
deriving Repr, DecidableEq

/-- Variants of a type-pack node (`TypePack.h`). -/
inductive LuauTypePack where
  | packP (head : List Nat) (tail : Option Nat)
  | boundP (dest : Nat)
  | variadicP (ty : Nat)
  | blockedP (owner : Option Nat)
  | genericP (name : String)
  | freeP
  | errorP
deriving Repr, DecidableEq

/-- The type arena: all type and pack nodes of the module, plus the index
sets of persistent nodes and of nodes owned by a foreign arena
(`ty->persistent` and `ty->owningArena != arena` in the source).  Newly
allocated nodes are appended, hence never persistent or foreign. -/
structure TypeArena where
  types : List LuauType
  packs : List LuauTypePack
  persistentTys : List Nat := []
  foreignTys : List Nat := []
deriving Repr

/-- Dereference a `TypeId`.  Pointers are always valid in the source; an
out-of-range index reads as the error type. -/
def TypeArena.getType (a : TypeArena) (i : Nat) : LuauType :=
  a.types.getD i .errorT

/-- Dereference a `TypePackId`. -/
def TypeArena.getPack (a : TypeArena) (i : Nat) : LuauTypePack :=
  a.packs.getD i .errorP

/-- In-place mutation of a type node (`asMutable(ty)->ty.emplace<...>`). -/
def TypeArena.setType (a : TypeArena) (i : Nat) (t : LuauType) : TypeArena :=
  { a with types := a.types.set i t }

/-- In-place mutation of a pack node. -/
def TypeArena.setPack (a : TypeArena) (i : Nat) (p : LuauTypePack) : TypeArena :=
  { a with packs := a.packs.set i p }

/-- `arena->addType`:  allocate a fresh node, returning its index. -/
def TypeArena.addType (a : TypeArena) (t : LuauType) : TypeArena × Nat :=
  ({ a with types := a.types ++ [t] }, a.types.length)

/-- `arena->addTypePack`:  allocate a fresh pack, returning its index. -/
def TypeArena.addTypePack (a : TypeArena) (p : LuauTypePack) : TypeArena × Nat :=
  ({ a with packs := a.packs ++ [p] }, a.packs.length)

/-- Fuel-driven `Bound` chase; the fuel only guards against ill-formed
cyclic stores, which the source excludes by invariant. -/
def followAux (a : TypeArena) : Nat → Nat → Nat
  | 0, i => i
  | fuel + 1, i =>
    match a.getType i with
    | .bound dest => followAux a fuel dest
    | _ => i

/-- `follow(ty)`: chase `Bound` indirection to the canonical representative. -/
def TypeArena.follow (a : TypeArena) (i : Nat) : Nat :=
  followAux a a.types.length i

/-- Fuel-driven `Bound` chase for packs. -/
def followPackAux (a : TypeArena) : Nat → Nat → Nat
  | 0, i => i
  | fuel + 1, i =>
    match a.getPack i with
    | .boundP dest => followPackAux a fuel dest
    | _ => i

/-- `follow(tp)` for type packs. -/
def TypeArena.followPack (a : TypeArena) (i : Nat) : Nat :=
  followPackAux a a.packs.length i

/-- `ty->persistent`. -/
def TypeArena.isPersistent (a : TypeArena) (i : Nat) : Bool :=
  a.persistentTys.contains i

/-- `ty->owningArena != arena`. -/
def TypeArena.isForeign (a : TypeArena) (i : Nat) : Bool :=
  a.foreignTys.contains i

/-! ## The blocking index (`BlockedConstraintId`, `blocked`,
`blockedConstraints`) -/

/-- A key of the `blocked` index: a type, a pack, or another constraint. -/
inductive BlockedConstraintId where
  | ofType (i : Nat)
  | ofPack (i : Nat)
  | ofConstraint (i : Nat)
deriving Repr, DecidableEq

/-- Diagnostic payloads relevant to the solver (`TypeErrorData`). -/
inductive TypeErrorData where
  | unknownSymbol (name : String)
  | occursCheckFailed
  | genericError (message : String)
  | codeTooComplex
  | unknownRequire
deriving Repr, DecidableEq

/-- A recorded diagnostic (`TypeError`): location, module name, payload. -/
structure LTypeError where
  location : Location
  moduleName : String
  data : TypeErrorData
deriving Repr, DecidableEq

/-- A constraint synthesized during dispatch (`pushConstraint`). -/
inductive PushedConstraint where
  | typeAliasExpansion (target : Nat)
  | reduce (ty : Nat)
  | reducePack (tp : Nat)
deriving Repr, DecidableEq

/-- `GenericTypeDefinition`: a declared generic type parameter with an
optional default. -/
structure GenericTypeDefinition where
  ty : Nat
  defaultValue : Option Nat := none
deriving Repr, DecidableEq

/-- `GenericTypePackDefinition`: a declared generic pack parameter with an
optional default. -/
structure GenericTypePackDefinition where
  tp : Nat
  defaultValue : Option Nat := none
deriving Repr, DecidableEq

/-- `TypeFun`: a type alias scheme — declared generics and the defined
body type. -/
structure TypeFun where
  typeParams : List GenericTypeDefinition := []
  typePackParams : List GenericTypePackDefinition := []
  type : Nat
deriving Repr, DecidableEq

/-- `InstantiationSignature`: the alias-cache key `(alias, type-args,
pack-args)`; equality is componentwise (`InstantiationSignature::operator==`,
lines 215-218). -/
structure InstantiationSignature where
  fn : TypeFun
  arguments : List Nat
  packArguments : List Nat
deriving Repr, DecidableEq

/-- The mutable state of `ConstraintSolver` that the dispatchers touch.
Constraints are referenced by index (`NotNull<const Constraint>`).  The
`blocked` map is total with default `[]`, matching lookup behaviour of the
`DenseHashMap`; `block_` keeps each per-key list duplicate-free, as the
`DenseHashSet` in the source does. -/
structure SolverState where
  arena : TypeArena
  uninhabitedTypeFamilies : List Nat := []
  uninhabitedTypeFamilyPacks : List Nat := []
  blocked : BlockedConstraintId → List Nat := fun _ => []
  blockedConstraints : Nat → Nat := fun _ => 0
  unresolvedConstraints : Nat → Nat := fun _ => 0
  instantiatedAliases : List (InstantiationSignature × Nat) := []
  errors : List LTypeError := []
  currentModuleName : String := ""
  pushedConstraints : List PushedConstraint := []

/-- Distinguished indices of the persistent builtin nodes
(`builtinTypes->errorType`, `errorTypePack`, `neverTypePack`, …). -/
structure Builtins where
  errorType : Nat
  neverType : Nat
  errorTypePack : Nat
  neverTypePack : Nat
deriving Repr, DecidableEq

/-- `ConstraintSolver::reportError(TypeErrorData&&, const Location&)`:
append the diagnostic at the supplied location, then stamp the solver's
current module name onto the freshly appended entry. -/
def reportErrorData (s : SolverState) (data : TypeErrorData) (location : Location) :
    SolverState :=
  { s with
      errors := s.errors ++
        [{ location := location, moduleName := s.currentModuleName, data := data }] }

/-- `ConstraintSolver::hasUnresolvedConstraints(TypeId)`: the reference
count recorded for the type is still positive. -/
def hasUnresolvedConstraints (s : SolverState) (ty : Nat) : Bool :=
  s.unresolvedConstraints ty > 0

/-! ## `isBlocked` on types (claim C1) -/

/-- `ConstraintSolver::isBlocked(TypeId)`, transcribed from the source:
follow the type; a `LocalType` is blocked while `blockCount > 0`; a
`TypeFamilyInstance` is blocked unless it has been interned in
`uninhabitedTypeFamilies`; otherwise blocked iff the node is `Blocked` or
`PendingExpansion`. -/
def isBlockedTy (a : TypeArena) (uninhabitedTypeFamilies : List Nat) (ty : Nat) : Bool :=
  match a.getType (a.follow ty) with
  | .localT _ blockCount => blockCount > 0
  | .typeFamilyInstance _ _ => !(uninhabitedTypeFamilies.contains (a.follow ty))
  | .blockedT _ => true
  | .pendingExpansion _ _ _ _ => true
  | _ => false

/-- The predicate exactly as the specification words it: `follow(ty)` is
`Blocked`, `PendingExpansion`, a `LocalType` with `blockCount > 0`, or a
*non-inhabited* `TypeFamilyInstance` (one interned as uninhabited); every
other variant is not blocked. -/
def specIsBlockedTy (a : TypeArena) (uninhabitedTypeFamilies : List Nat) (ty : Nat) : Bool :=
  match a.getType (a.follow ty) with
  | .blockedT _ => true
  | .pendingExpansion _ _ _ _ => true
  | .localT _ blockCount => blockCount > 0
  | .typeFamilyInstance _ _ => uninhabitedTypeFamilies.contains (a.follow ty)
  | _ => false

/-- The amended predicate: as the claim, except that a `TypeFamilyInstance`
is blocked exactly when it has **not** been determined uninhabited. -/
def amendedIsBlockedTy (a : TypeArena) (uninhabitedTypeFamilies : List Nat) (ty : Nat) : Bool :=
  match a.getType (a.follow ty) with
  | .blockedT _ => true
  | .pendingExpansion _ _ _ _ => true
  | .localT _ blockCount => blockCount > 0
  | .typeFamilyInstance _ _ => !(uninhabitedTypeFamilies.contains (a.follow ty))
  | _ => false

/-- A one-node arena holding a `TypeFamilyInstance` that has been interned
as uninhabited. -/
def c1Arena : TypeArena :=
  { types := [.typeFamilyInstance [] []], packs := [] }

/-! ## The blocking index operations (claim C7) -/

/-- `ConstraintSolver::block_`: if the constraint is already recorded under
the key, do nothing and report `false`; otherwise insert it into
`blocked[target]` and increment `blockedConstraints[constraint]`. -/
def block_ (s : SolverState) (target : BlockedConstraintId) (constraint : Nat) :
    SolverState × Bool :=
  if constraint ∈ s.blocked target then
    (s, false)
  else
    ({ s with
        blocked := fun k =>
          if k = target then s.blocked target ++ [constraint] else s.blocked k,
        blockedConstraints := fun d =>
          if d = constraint then s.blockedConstraints d + 1 else s.blockedConstraints d },
      true)

/-- `ConstraintSolver::unblock_`: decrement `blockedConstraints` once for
each occurrence of a constraint in `blocked[progressed]` (the source loops
over the set), then erase the entry. -/
def unblock_ (s : SolverState) (progressed : BlockedConstraintId) : SolverState :=
  let cs := s.blocked progressed
  { s with
      blocked := fun k => if k = progressed then [] else s.blocked k,
      blockedConstraints := fun d => s.blockedConstraints d - cs.count d }


/-! ## The solver pass (claim C6) -/

/-- One pass of `ConstraintSolver::run` (the `runSolverPass` lambda),
generic in the solver state `σ`.  `dispatch` is `tryDispatch` (it may
mutate the state even on failure); `onSuccess` is the bookkeeping performed
after a successful dispatch (`unblock(c)` and the reference-count
decrements); `isBlockedC` is `isBlocked(c)`.  The limit checks raise
non-local exits and the logger is inert, so neither appears here.  Scanning
the `unsolved` vector front to back with in-place erasure on success is
rendered as structural recursion over the list; in force mode the pass
returns as soon as one constraint is dispatched. -/
def runSolverPass {σ : Type} (dispatch : σ → Nat → σ × Bool)
    (onSuccess : σ → Nat → σ) (isBlockedC : σ → Nat → Bool) (force : Bool) :
    σ → List Nat → σ × List Nat × Bool
  | s, [] => (s, [], false)
  | s, c :: rest =>
    if !force && isBlockedC s c then
      let r := runSolverPass dispatch onSuccess isBlockedC force s rest
      (r.1, c :: r.2.1, r.2.2)
    else
      let d := dispatch s c
      if d.2 then
        let s₂ := onSuccess d.1 c
        if force then (s₂, rest, true)
        else
          let r := runSolverPass dispatch onSuccess isBlockedC force s₂ rest
          (r.1, r.2.1, true)
      else
        let r := runSolverPass dispatch onSuccess isBlockedC force d.1 rest
        (r.1, c :: r.2.1, r.2.2)

/-! ## The FunctionCall short-circuits (claim C8) -/

/-- `ConstraintSolver::block(TypeId, constraint)`: record the blocking edge
keyed by the followed type.  Always returns `false`, so a handler can
`return block(...)`. -/
def blockOnType (s : SolverState) (target : Nat) (constraint : Nat) :
    SolverState × Bool :=
  ((block_ s (.ofType (s.arena.follow target)) constraint).1, false)

/-- `FunctionCallConstraint`: callee, argument pack, result pack. -/
structure FunctionCallConstraint where
  fn : Nat
  argsPack : Nat
  result : Nat
deriving Repr, DecidableEq

/-- The leading short-circuits of
`ConstraintSolver::tryDispatch(FunctionCallConstraint)`: block on a blocked
or still-referenced callee; for an `error` callee bind the result pack to
the error type pack, for a `never` callee to the never type pack, and
return `true`.  Everything from argument flattening onward (uniform-union
collapse, `__call`, overload resolution, unification) is the continuation
`rest`. -/
def tryDispatchFunctionCall (bt : Builtins)
    (rest : SolverState → SolverState × Bool)
    (s : SolverState) (cref : Nat) (c : FunctionCallConstraint) :
    SolverState × Bool :=
  let fn := s.arena.follow c.fn
  if isBlockedTy s.arena s.uninhabitedTypeFamilies fn || hasUnresolvedConstraints s fn then
    blockOnType s c.fn cref
  else if s.arena.getType fn = .errorT then
    let s := { s with arena := s.arena.setPack c.result (.boundP bt.errorTypePack) }
    (unblock_ s (.ofPack c.result), true)
  else if s.arena.getType fn = .neverT then
    let s := { s with arena := s.arena.setPack c.result (.boundP bt.neverTypePack) }
    (unblock_ s (.ofPack c.result), true)
  else
    rest s

/-- Arena of the C8 witness: the callee nodes and a blocked result pack. -/
def c8Arena : TypeArena :=
  { types := [.errorT, .neverT], packs := [.blockedP none, .blockedP none],
    persistentTys := [0, 1] }


/-! ## Alias saturation (`saturateArguments`, claim C10) -/

/-- Opaque collaborator services consumed by the solver but implemented
outside this translation unit: the `TypePack` accessors `size` / `finite` /
`first` (TypePack.cpp), `ApplyTypeFunction::substitute` for types and packs
(Substitution.cpp; it receives the accumulated `typeArguments` /
`typePackArguments` maps and may allocate, hence threads the arena),
`Substitution::clone`, the free-function `occursCheck` (Unifier2), and
`maybeSingleton` (TypeUtils.cpp).  Every theorem quantifies over an
arbitrary `Oracle`. -/
structure Oracle where
  sizeP : TypeArena → Nat → Nat
  finiteP : TypeArena → Nat → Bool
  firstP : TypeArena → Nat → Option Nat
  substitute : TypeArena → List (Nat × Nat) → List (Nat × Nat) → Nat →
    TypeArena × Option Nat
  substitutePack : TypeArena → List (Nat × Nat) → List (Nat × Nat) → Nat →
    TypeArena × Option Nat
  cloneTy : TypeArena → Nat → TypeArena × Nat
  occursCheck : TypeArena → Nat → Nat → Bool
  maybeSingleton : TypeArena → Nat → Bool

/-- The loop over raw pack arguments in `saturateArguments` (lines
108-123): a single-element finite pack may decompose into a missing type
slot (only while no pack argument has been accepted); otherwise the pack
fills the next pack slot if one is open.  The `getD 0` is only reached
under the `isSome` guard. -/
def satPackLoop (oracle : Oracle) (arena : TypeArena) (typesRequired packsRequired : Nat) :
    List Nat → List Nat → List Nat → List Nat × List Nat
  | [], satT, satP => (satT, satP)
  | tp :: rest, satT, satP =>
    if satT.length < typesRequired && oracle.sizeP arena tp == 1 &&
        oracle.finiteP arena tp && (oracle.firstP arena tp).isSome && satP.isEmpty then
      satPackLoop oracle arena typesRequired packsRequired rest
        (satT ++ [(oracle.firstP arena tp).getD 0]) satP
    else if satP.length < packsRequired then
      satPackLoop oracle arena typesRequired packsRequired rest satT (satP ++ [tp])
    else
      satPackLoop oracle arena typesRequired packsRequired rest satT satP

/-- The default-application loop for missing type parameters (lines
152-166): walk the remaining parameters in declaration order, stopping at
the first one without a default; each instantiated default (error-recovery
type on substitution failure) is recorded in the `ApplyTypeFunction` map so
later defaults can refer to earlier parameters.  Returns the final arena,
the final argument map, and the list of appended saturated arguments. -/
def typeDefaultsLoop (oracle : Oracle) (err : Nat) :
    TypeArena → List (Nat × Nat) → List (Nat × Nat) → List GenericTypeDefinition →
    TypeArena × List (Nat × Nat) × List Nat
  | arena, atfTypes, _, [] => (arena, atfTypes, [])
  | arena, atfTypes, atfPacks, p :: rest =>
    match p.defaultValue with
    | none => (arena, atfTypes, [])
    | some defaultTy =>
      let r := oracle.substitute arena atfTypes atfPacks defaultTy
      let instantiatedDefault := r.2.getD err
      let r2 := typeDefaultsLoop oracle err r.1
        (atfTypes ++ [(p.ty, instantiatedDefault)]) atfPacks rest
      (r2.1, r2.2.1, instantiatedDefault :: r2.2.2)

/-- The default-application loop for missing pack parameters (lines
173-184). -/
def packDefaultsLoop (oracle : Oracle) (errPack : Nat) :
    TypeArena → List (Nat × Nat) → List (Nat × Nat) → List GenericTypePackDefinition →
    TypeArena × List (Nat × Nat) × List Nat
  | arena, _, atfPacks, [] => (arena, atfPacks, [])
  | arena, atfTypes, atfPacks, p :: rest =>
    match p.defaultValue with
    | none => (arena, atfPacks, [])
    | some defaultTp =>
      let r := oracle.substitutePack arena atfTypes atfPacks defaultTp
      let instantiatedDefault := r.2.getD errPack
      let r2 := packDefaultsLoop oracle errPack r.1 atfTypes
        (atfPacks ++ [(p.tp, instantiatedDefault)]) rest
      (r2.1, r2.2.1, instantiatedDefault :: r2.2.2)

/-- Lines 99-106 of `saturateArguments`: if extra provided types overflowed
the type slots and the alias declares pack parameters, collect them into one
freshly allocated trailing pack. -/
def saturateExtraPack (arena : TypeArena) (fn : TypeFun) (extraTypes : List Nat) :
    TypeArena × List Nat :=
  if !extraTypes.isEmpty && !fn.typePackParams.isEmpty then
    let r := arena.addTypePack (.packP extraTypes none)
    (r.1, [r.2])
  else (arena, [])

/-- Lines 125-185 of `saturateArguments`: apply declared defaults, in
declaration order, when the caller provided too few types but no packs, or
all the types but too few packs. -/
def saturateDefaults (oracle : Oracle) (errTy errPack : Nat) (fn : TypeFun)
    (arena : TypeArena) (satT satP : List Nat) : TypeArena × List Nat × List Nat :=
  let needsDefaults :=
    (satT.length < fn.typeParams.length && satP.length == 0)
    || (satT.length == fn.typeParams.length && satP.length < fn.typePackParams.length)
  if needsDefaults then
    let atfTypes0 := (fn.typeParams.zip satT).map fun pt => (pt.1.ty, pt.2)
    let rT := typeDefaultsLoop oracle errTy arena atfTypes0 []
      (fn.typeParams.drop satT.length)
    let atfPacks0 := (fn.typePackParams.zip satP).map fun pt => (pt.1.tp, pt.2)
    let rP := packDefaultsLoop oracle errPack rT.1 rT.2.1 atfPacks0
      (fn.typePackParams.drop satP.length)
    (rP.1, satT ++ rT.2.2, satP ++ rP.2.2)
  else (arena, satT, satP)

/-- Lines 187-193 of `saturateArguments`: if no overflow pack was created
and exactly the final pack slot is still missing, plug in a fresh empty
pack. -/
def saturateEmptyPack (fn : TypeFun) (extraTypes : List Nat) (arena : TypeArena)
    (satP : List Nat) : TypeArena × List Nat :=
  if extraTypes.isEmpty && satP.length + 1 == fn.typePackParams.length then
    let r := arena.addTypePack (.packP [] none)
    (r.1, satP ++ [r.2])
  else (arena, satP)

/-- `saturateArguments` (lines 82-213): provided type arguments fill the
type slots, the overflow collects into one fresh trailing pack; a
single-element pack may decompose into a missing type slot; defaults are
applied in declaration order; a single still-missing trailing pack slot
(with no overflow) receives a fresh empty pack; all remaining slots are
filled with the error-recovery type / pack. -/
def saturateArguments (oracle : Oracle) (arena : TypeArena) (errTy errPack : Nat)
    (fn : TypeFun) (rawTypeArguments rawPackArguments : List Nat) :
    TypeArena × List Nat × List Nat :=
  let sat0 := rawTypeArguments.take fn.typeParams.length
  let extraTypes := rawTypeArguments.drop fn.typeParams.length
  let step1 := saturateExtraPack arena fn extraTypes
  let step2 := satPackLoop oracle step1.1 fn.typeParams.length fn.typePackParams.length
    rawPackArguments sat0 step1.2
  let step3 := saturateDefaults oracle errTy errPack fn step1.1 step2.1 step2.2
  let step4 := saturateEmptyPack fn extraTypes step3.1 step3.2.2
  (step4.1,
    step3.2.1 ++ List.replicate (fn.typeParams.length - step3.2.1.length) errTy,
    step4.2 ++ List.replicate (fn.typePackParams.length - step4.2.length) errPack)

/-- An oracle with inert collaborators, for concrete witnesses. -/
def trivialOracle : Oracle :=
  { sizeP := fun _ _ => 0
    finiteP := fun _ _ => false
    firstP := fun _ _ => none
    substitute := fun a _ _ _ => (a, none)
    substitutePack := fun a _ _ _ => (a, none)
    cloneTy := fun a i => (a, i)
    occursCheck := fun _ _ _ => false
    maybeSingleton := fun _ _ => false }

/-- The alias scheme of the C10 counterexample: no type parameters, one
defaultless pack parameter. -/
def c10Fn : TypeFun := { typeParams := [], typePackParams := [⟨0, none⟩], type := 0 }

/-- An empty arena. -/
def emptyArena : TypeArena := { types := [], packs := [] }


/-! ## Type alias expansion (claims C2, C3, C4) -/

/-- `Scope` lookups (Scope.cpp, outside src/): resolve an alias name,
possibly qualified by an imported-module name. -/
structure Scope where
  lookupType : String → Option TypeFun
  lookupImportedType : String → String → Option TypeFun

/-- The alias lookup of the dispatcher and of `InfiniteTypeFinder`:
`(petv.prefix) ? scope->lookupImportedType(...) : scope->lookupType(...)`. -/
def taeLookup (scope : Scope) : Option String → String → Option TypeFun
  | some p, n => scope.lookupImportedType p n
  | none, n => scope.lookupType n

/-- `DenseHashMap::find` on the alias cache. -/
def lookupSig : List (InstantiationSignature × Nat) → InstantiationSignature → Option Nat
  | [], _ => none
  | e :: rest, signature =>
    if e.1 == signature then some e.2 else lookupSig rest signature

/-- `ConstraintSolver::unblock(TypeId, Location)` (lines 2547-2568): walk
the `Bound` chain from the progressed type, unblocking every
representative, each visited at most once.  A self-bound cycle is an
internal compiler error in the source; the walk stops there. -/
def unblockTypeAux : Nat → SolverState → List Nat → Nat → SolverState
  | 0, s, _, _ => s
  | fuel + 1, s, seen, ty =>
    if ty ∈ seen then s
    else
      let s' := unblock_ s (.ofType ty)
      match s'.arena.getType ty with
      | .bound dest => unblockTypeAux fuel s' (ty :: seen) dest
      | _ => s'

/-- `unblock(TypeId, Location)` entry point. -/
def unblockType (s : SolverState) (ty : Nat) : SolverState :=
  unblockTypeAux (s.arena.types.length + 1) s [] ty

/-- The `bindResult` lambda of the TypeAliasExpansion dispatcher (lines
772-776): emplace a `BoundType` over the pending-expansion target, then
unblock the target. -/
def bindTAEResult (s : SolverState) (target result : Nat) : SolverState :=
  unblockType { s with arena := s.arena.setType target (.bound result) } target

/-- `ConstraintSolver::pushConstraint`, restricted to the payload. -/
def pushC (s : SolverState) (c : PushedConstraint) : SolverState :=
  { s with pushedConstraints := s.pushedConstraints ++ [c] }

/-- Modelled from the spec: the structural children visited by the
`TypeOnceVisitor` traversal engine (VisitType.h, outside src/).  Classes
are not recursed into; `PendingExpansion` and `TypeFamilyInstance` descend
only into their argument lists — they are "leaves that must be queued, not
expanded inline"; `Bound` chases its target.  Pack children are omitted:
the claims exercise only type children. -/
def typeChildren : LuauType → List Nat
  | .bound dest => [dest]
  | .free lowerBound upperBound => [lowerBound, upperBound]
  | .pendingExpansion _ _ typeArguments _ => typeArguments
  | .typeFamilyInstance typeArguments _ => typeArguments
  | .localT domain _ => [domain]
  | .table props _ _ => props.map Prod.snd
  | .metatable tbl mt => [tbl, mt]
  | .unionT parts => parts
  | .intersectionT parts => parts
  | _ => []

/-- Fuel bound for a once-visiting traversal: one step per initial root
plus one per structural child edge in the arena (saturation inside the
traversal allocates only packs, so the bound is stable). -/
def traversalFuel (a : TypeArena) : Nat :=
  2 + (a.types.map (fun t => (typeChildren t).length)).sum

/-- `InfiniteTypeFinder` (lines 729-761) driven by the traversal engine:
visit each reachable type once, depth-first; at a `PendingExpansion`, look
the alias up (missing aliases descend), saturate its arguments through the
arena, and flag an infinite type — without descending — when the same alias
is re-expanded with different saturated arguments; the traversal continues
over the remaining work. -/
def itfTraverse (oracle : Oracle) (bt : Builtins) (scope : Scope)
    (signature : InstantiationSignature) :
    Nat → TypeArena → Bool → List Nat → List Nat → TypeArena × Bool
  | 0, arena, found, _, _ => (arena, found)
  | _ + 1, arena, found, _, [] => (arena, found)
  | fuel + 1, arena, found, seen, ty :: rest =>
    if ty ∈ seen then
      itfTraverse oracle bt scope signature fuel arena found seen rest
    else
      match arena.getType ty with
      | .pendingExpansion petvPrefix name typeArguments packArguments =>
        match taeLookup scope petvPrefix name with
        | none =>
          itfTraverse oracle bt scope signature fuel arena found (ty :: seen)
            (typeArguments ++ rest)
        | some tf =>
          let r := saturateArguments oracle arena bt.errorType bt.errorTypePack tf
            typeArguments packArguments
          if r.1.follow tf.type == r.1.follow signature.fn.type &&
              !(signature.arguments == r.2.1 && signature.packArguments == r.2.2) then
            itfTraverse oracle bt scope signature fuel r.1 true (ty :: seen) rest
          else
            itfTraverse oracle bt scope signature fuel r.1 found (ty :: seen)
              (typeArguments ++ rest)
      | t =>
        itfTraverse oracle bt scope signature fuel arena found (ty :: seen)
          (typeChildren t ++ rest)

/-- Run `InfiniteTypeFinder` over the defined body, threading the solver
state's arena (the visitor saturates through `solver->arena`). -/
def infiniteTypeFinderRun (oracle : Oracle) (bt : Builtins) (scope : Scope)
    (signature : InstantiationSignature) (s : SolverState) (root : Nat) :
    SolverState × Bool :=
  let r := itfTraverse oracle bt scope signature (traversalFuel s.arena) s.arena false [] [root]
  ({ s with arena := r.1 }, r.2)

/-- `InstantiationQueuer` (lines 257-286) driven by the traversal engine:
queue a `TypeAliasExpansion` constraint at every pending expansion (not
descending), a `Reduce` constraint at every family instance (descending
into its arguments), and skip classes. -/
def queuerTraverse : Nat → SolverState → List Nat → List Nat → SolverState
  | 0, s, _, _ => s
  | _ + 1, s, _, [] => s
  | fuel + 1, s, seen, ty :: rest =>
    if ty ∈ seen then queuerTraverse fuel s seen rest
    else
      match s.arena.getType ty with
      | .pendingExpansion _ _ _ _ =>
        queuerTraverse fuel (pushC s (.typeAliasExpansion ty)) (ty :: seen) rest
      | .typeFamilyInstance typeArguments _ =>
        queuerTraverse fuel (pushC s (.reduce ty)) (ty :: seen) (typeArguments ++ rest)
      | .classT _ => queuerTraverse fuel s (ty :: seen) rest
      | t => queuerTraverse fuel s (ty :: seen) (typeChildren t ++ rest)

/-- Run the `InstantiationQueuer` over the substituted body. -/
def queuerRun (s : SolverState) (root : Nat) : SolverState :=
  queuerTraverse (traversalFuel s.arena) s [] [root]

/-- `getTableType` (Type.h, outside src/): follow; a table is itself; a
metatable wrapper defers to its inner table. -/
def getTableTypeAux (a : TypeArena) : Nat → Nat → Option Nat
  | 0, _ => none
  | fuel + 1, ty =>
    match a.getType (a.follow ty) with
    | .table _ _ _ => some (a.follow ty)
    | .metatable tbl _ => getTableTypeAux a fuel tbl
    | _ => none

/-- `getTableType` entry point. -/
def getTableType (a : TypeArena) (ty : Nat) : Option Nat :=
  getTableTypeAux a (a.types.length + 1) ty

/-- Stamp `instantiatedTypeParams` / `instantiatedTypePackParams` onto a
table node (`ttv->instantiatedTypeParams = typeArguments; ...`). -/
def stampTable (a : TypeArena) (ttvIdx : Nat) (typeArguments packArguments : List Nat) :
    TypeArena :=
  match a.getType ttvIdx with
  | .table props _ _ => a.setType ttvIdx (.table props typeArguments packArguments)
  | _ => a

/-- Append the freshly bound instantiation to the alias cache
(`instantiatedAliases[signature] = target`; the dispatcher only inserts
after a failed lookup, so append is assignment). -/
def cacheInsert (s : SolverState) (signature : InstantiationSignature) (tgt : Nat) :
    SolverState :=
  { s with instantiatedAliases := s.instantiatedAliases ++ [(signature, tgt)] }

/-- Lines 898-939 of the TypeAliasExpansion dispatcher: if the substituted
body shares its root (or its table layer) with the alias's declared form,
shallow-clone the table / metatable layer so another module's surface is
not mutated; stamp the instantiation parameters on the table; bind the
target and cache the instantiation. -/
def taeFinish (oracle : Oracle) (s : SolverState) (target : Nat)
    (signature : InstantiationSignature) (tfType tgt : Nat)
    (typeArguments packArguments : List Nat) : SolverState × Bool :=
  let tfTable := getTableType s.arena tfType
  let needsClone := s.arena.follow tfType == tgt ||
    (tfTable.isSome && tfTable == getTableType s.arena tgt)
  match getTableType s.arena tgt with
  | none =>
    (cacheInsert (bindTAEResult s target tgt) signature tgt, true)
  | some ttvIdx =>
    if needsClone then
      match s.arena.getType tgt with
      | .metatable _ _ =>
        let c1 := oracle.cloneTy s.arena tgt
        match c1.1.getType c1.2 with
        | .metatable tbl2 mt2 =>
          let c2 := oracle.cloneTy c1.1 tbl2
          let a3 := (c2.1.setType c1.2 (.metatable c2.2 mt2))
          let a4 := stampTable a3 c2.2 typeArguments packArguments
          let tgt2 := a4.follow c1.2
          (cacheInsert (bindTAEResult { s with arena := a4 } target tgt2) signature tgt2,
            true)
        | _ =>
          let tgt2 := c1.1.follow c1.2
          (cacheInsert (bindTAEResult { s with arena := c1.1 } target tgt2) signature tgt2,
            true)
      | .table _ _ _ =>
        let c1 := oracle.cloneTy s.arena tgt
        let a2 := stampTable c1.1 c1.2 typeArguments packArguments
        let tgt2 := a2.follow c1.2
        (cacheInsert (bindTAEResult { s with arena := a2 } target tgt2) signature tgt2, true)
      | _ =>
        let a2 := stampTable s.arena ttvIdx typeArguments packArguments
        (cacheInsert (bindTAEResult { s with arena := a2 } target tgt) signature tgt, true)
    else
      let a2 := stampTable s.arena ttvIdx typeArguments packArguments
      (cacheInsert (bindTAEResult { s with arena := a2 } target tgt) signature tgt, true)

/-- `ConstraintSolver::tryDispatch(TypeAliasExpansionConstraint)` (lines
763-940): resolve the alias (unknown → error + diagnostic); a
parameterless alias binds to its defined type; a positive occurs check
binds to error; saturate the arguments; the identity substitution binds to
the defined type; a cached signature binds to the cached instantiation; a
pending self-expansion with different arguments binds to error with a
*Recursive type being used with different parameters* diagnostic;
otherwise substitute, queue sub-expansions/reductions, and bind (cloning
and stamping tables as needed). -/
def tryDispatchTAE (oracle : Oracle) (bt : Builtins) (scope : Scope) (loc : Location)
    (s : SolverState) (target : Nat) : SolverState × Bool :=
  match s.arena.getType (s.arena.follow target) with
  | .pendingExpansion petvPrefix name typeArgumentsRaw packArgumentsRaw =>
    match taeLookup scope petvPrefix name with
    | none =>
      let s := reportErrorData s (.unknownSymbol name) loc
      (bindTAEResult s target bt.errorType, true)
    | some tf =>
      if tf.typeParams.isEmpty && tf.typePackParams.isEmpty then
        (bindTAEResult s target tf.type, true)
      else if oracle.occursCheck s.arena target tf.type then
        let s := reportErrorData s .occursCheckFailed loc
        (bindTAEResult s target bt.errorType, true)
      else
        let r := saturateArguments oracle s.arena bt.errorType bt.errorTypePack tf
          typeArgumentsRaw packArgumentsRaw
        let s := { s with arena := r.1 }
        let typeArguments := r.2.1
        let packArguments := r.2.2
        if typeArguments == tf.typeParams.map (·.ty) &&
            packArguments == tf.typePackParams.map (·.tp) then
          (bindTAEResult s target tf.type, true)
        else
          let signature : InstantiationSignature := ⟨tf, typeArguments, packArguments⟩
          match lookupSig s.instantiatedAliases signature with
          | some cached => (bindTAEResult s target cached, true)
          | none =>
            let itf := infiniteTypeFinderRun oracle bt scope signature s tf.type
            if itf.2 then
              (reportErrorData (bindTAEResult itf.1 target bt.errorType)
                (.genericError "Recursive type being used with different parameters") loc,
                true)
            else
              let sub := oracle.substitute itf.1.arena
                ((tf.typeParams.zip typeArguments).map fun pt => (pt.1.ty, pt.2))
                ((tf.typePackParams.zip packArguments).map fun pt => (pt.1.tp, pt.2))
                tf.type
              let s := { itf.1 with arena := sub.1 }
              match sub.2 with
              | none => (bindTAEResult s target bt.errorType, true)
              | some instantiated =>
                let tgt := s.arena.follow instantiated
                let s := queuerRun s tgt
                if s.arena.isPersistent tgt || s.arena.isForeign tgt then
                  (bindTAEResult s target tgt, true)
                else
                  taeFinish oracle s target signature tf.type tgt
                    typeArguments packArguments
  | _ => (unblockType s target, true)


/-- Builtins for the alias-expansion scenarios: the error type lives at
index 0 of the scenario arenas. -/
def taeBuiltins : Builtins := ⟨0, 0, 0, 0⟩

/-- The infinite alias scenario: `type T<A> = T<...>` whose body (index 5)
re-expands `T` at a table wrapping the generic `A`, while the constraint
target (index 1) expands `T` at `number`. -/
def c2Tf : TypeFun := { typeParams := [⟨3, none⟩], typePackParams := [], type := 5 }

/-- Arena of the infinite-alias scenario. -/
def c2Arena : TypeArena :=
  { types := [.errorT, .pendingExpansion none "T" [2] [], .primitive "number",
      .generic "A", .table [("x", 3)] [] [], .pendingExpansion none "T" [4] []]
    packs := [.errorP] }

/-- Scope resolving `T` to the infinite alias. -/
def c2Scope : Scope :=
  { lookupType := fun n => if n = "T" then some c2Tf else none
    lookupImportedType := fun _ _ => none }

/-- The identity-substitution scenario: `type T<A> = ...` with body a table
wrapping `A` (index 4), expanded at its own generic `A` (index 3). -/
def c3Tf : TypeFun := { typeParams := [⟨3, none⟩], typePackParams := [], type := 4 }

/-- Arena of the identity-substitution scenario. -/
def c3Arena : TypeArena :=
  { types := [.errorT, .pendingExpansion none "T" [3] [], .primitive "number",
      .generic "A", .table [("x", 3)] [] []]
    packs := [.errorP] }

/-- Scope resolving `T` to the identity-scenario alias. -/
def c3Scope : Scope :=
  { lookupType := fun n => if n = "T" then some c3Tf else none
    lookupImportedType := fun _ _ => none }

/-- The cache scenario: `type T<A> = ...` with a table body (index 4),
expanded at `number` by two independent constraints (targets 1 and 5). -/
def c4Tf : TypeFun := { typeParams := [⟨3, none⟩], typePackParams := [], type := 4 }

/-- Arena of the cache scenario. -/
def c4Arena : TypeArena :=
  { types := [.errorT, .pendingExpansion none "T" [2] [], .primitive "number",
      .generic "A", .table [("x", 3)] [] [], .pendingExpansion none "T" [2] []]
    packs := [.errorP] }

/-- Scope resolving `T` to the cache-scenario alias. -/
def c4Scope : Scope :=
  { lookupType := fun n => if n = "T" then some c4Tf else none
    lookupImportedType := fun _ _ => none }

/-- An oracle whose substitution instantiates the cache-scenario body
(index 4) to a freshly allocated table with the `number` argument. -/
def c4Oracle : Oracle :=
  { trivialOracle with
    substitute := fun a _ _ ty =>
      if ty = 4 then
        let r := a.addType (.table [("x", 2)] [] [])
        (r.1, some r.2)
      else (a, none) }


/-! ## The PrimitiveType dispatcher (claim C5) and diagnostics (claim C9) -/

/-- `PrimitiveTypeConstraint`: commit `freeType` to `primitiveType`,
guided by an optional expected type. -/
structure PrimitiveTypeConstraint where
  freeType : Nat
  expectedType : Option Nat
  primitiveType : Nat
deriving Repr, DecidableEq

/-- `get<PendingExpansionType>(ty) != nullptr`. -/
def isPendingExpansion (a : TypeArena) (ty : Nat) : Bool :=
  match a.getType ty with
  | .pendingExpansion _ _ _ _ => true
  | _ => false

/-- `ConstraintSolver::tryDispatch(PrimitiveTypeConstraint)` (lines
1218-1248): block while the followed expected type is blocked or a pending
expansion; succeed trivially if the type is no longer free; block while
other constraints still reference the free type
(`unresolvedConstraints[freeType] > 1`); otherwise bind the free type to
the declared primitive — except that it binds to the lower bound when the
upper bound differs from the primitive and may be a singleton, or the
expected type may be a singleton. -/
def tryDispatchPrimitiveType (oracle : Oracle) (s : SolverState) (cref : Nat)
    (c : PrimitiveTypeConstraint) : SolverState × Bool :=
  let expectedType := c.expectedType.map s.arena.follow
  if expectedType.isSome &&
      (isBlockedTy s.arena s.uninhabitedTypeFamilies (expectedType.getD 0)
        || isPendingExpansion s.arena (expectedType.getD 0)) then
    blockOnType s (expectedType.getD 0) cref
  else
    match s.arena.getType (s.arena.follow c.freeType) with
    | .free lowerBound upperBound =>
      if s.unresolvedConstraints c.freeType > 1 then
        ((blockOnType s c.freeType cref).1, false)
      else
        let bindTo :=
          if upperBound != c.primitiveType && oracle.maybeSingleton s.arena upperBound then
            lowerBound
          else if expectedType.isSome &&
              oracle.maybeSingleton s.arena (expectedType.getD 0) then
            lowerBound
          else
            c.primitiveType
        ({ s with arena := s.arena.setType c.freeType (.bound bindTo) }, true)
    | _ => (s, true)

/-- Arena of the C5 witness: a free type with bounds `never`/`unknown` and
the primitive `number`. -/
def c5Arena : TypeArena :=
  { types := [.free 1 2, .neverT, .unknownT, .primitive "number"], packs := [] }

/-- Arena of the C5 counterexample: as the witness, plus a blocked node
serving as the constraint's expected type. -/
def c5BlockedArena : TypeArena :=
  { types := [.free 1 2, .neverT, .unknownT, .primitive "number", .blockedT none],
    packs := [] }

/-- Arena of the C9 counterexample: a pending expansion of an alias the
scope cannot resolve. -/
def c9Arena : TypeArena :=
  { types := [.errorT, .pendingExpansion none "Missing" [] []], packs := [] }

/-- A scope that resolves nothing. -/
def c9Scope : Scope :=
  { lookupType := fun _ => none, lookupImportedType := fun _ _ => none }

/-- A concrete solver state with one constraint (5) blocked on type 0. -/
def c7State : SolverState :=
  { arena := c1Arena
    blocked := fun k => if k = .ofType 0 then [5] else [] }


/-- `follow` on a node that is not a `Bound` indirection is the node
itself. -/
theorem follow_stable (a : TypeArena) (i : Nat)
    (h : ∀ d, a.getType i ≠ .bound d) : a.follow i = i := by
  unfold TypeArena.follow
  cases hl : a.types.length with
  | zero => rfl
  | succ n =>
    unfold followAux
    cases hg : a.getType i with
    | bound dest => exact absurd hg (h dest)
    | _ => rfl

/-- Reading back an in-range pack mutation. -/
theorem getPack_setPack_self (a : TypeArena) (i : Nat) (p : LuauTypePack)
    (h : i < a.packs.length) : (a.setPack i p).getPack i = p := by
  simp [TypeArena.setPack, TypeArena.getPack, List.getD, List.getElem?_set_self, h]

/-- Helper for C6: in a force pass, at most one constraint is removed; if
the pass reports no progress the list is unchanged; if it reports progress
exactly one constraint was removed (the first one that dispatched). -/
theorem force_pass_spec {σ : Type} (dispatch : σ → Nat → σ × Bool)
    (onSuccess : σ → Nat → σ) (isBlockedC : σ → Nat → Bool) :
    ∀ (s : σ) (cs : List Nat),
      cs.length ≤ ((runSolverPass dispatch onSuccess isBlockedC true s cs).2.1).length + 1 ∧
      ((runSolverPass dispatch onSuccess isBlockedC true s cs).2.2 = false →
        (runSolverPass dispatch onSuccess isBlockedC true s cs).2.1 = cs) ∧
      ((runSolverPass dispatch onSuccess isBlockedC true s cs).2.2 = true →
        ∃ pre c post, cs = pre ++ c :: post ∧
          (runSolverPass dispatch onSuccess isBlockedC true s cs).2.1 = pre ++ post)
  | s, [] => by simp [runSolverPass]
  | s, c :: rest => by
    by_cases hd : (dispatch s c).2
    · refine ⟨?_, ?_, ?_⟩ <;> simp [runSolverPass, hd]
      exact ⟨[], c, rest, rfl, rfl⟩
    · have ih := force_pass_spec dispatch onSuccess isBlockedC (dispatch s c).1 rest
      refine ⟨?_, ?_, ?_⟩
      · simpa [runSolverPass, hd] using ih.1
      · intro hp
        simp only [runSolverPass, hd] at hp ⊢
        simp only [Bool.not_true, Bool.false_and, Bool.false_eq_true, if_false] at hp ⊢
        rw [ih.2.1 hp]
      · intro hp
        simp [runSolverPass, hd] at hp
        obtain ⟨pre, c', post, hcs, hres⟩ := ih.2.2 hp
        exact ⟨c :: pre, c', post, by simp [hcs], by simp [runSolverPass, hd, hres]⟩

/-- **C6.**  A force-mode pass returns immediately after the first
constraint it successfully dispatches, removing exactly that constraint and
reporting progress — hence at most one constraint is dispatched per force
pass (the remaining list loses at most one element, and exactly one when
progress is reported).  A normal pass instead continues scanning the whole
list: with a dispatcher that always succeeds, a normal pass over two
constraints dispatches both. -/
theorem c6_force_pass {σ : Type} (dispatch : σ → Nat → σ × Bool)
    (onSuccess : σ → Nat → σ) (isBlockedC : σ → Nat → Bool) (s : σ) (cs : List Nat) :
    cs.length ≤ ((runSolverPass dispatch onSuccess isBlockedC true s cs).2.1).length + 1 ∧
    ((runSolverPass dispatch onSuccess isBlockedC true s cs).2.2 = false →
      (runSolverPass dispatch onSuccess isBlockedC true s cs).2.1 = cs) ∧
    ((runSolverPass dispatch onSuccess isBlockedC true s cs).2.2 = true →
      ∃ pre c post, cs = pre ++ c :: post ∧
        (runSolverPass dispatch onSuccess isBlockedC true s cs).2.1 = pre ++ post) ∧
    runSolverPass (fun (u : Unit) _ => (u, true)) (fun u _ => u) (fun _ _ => false)
        false () [0, 1] = ((), [], true) := by
  have h := force_pass_spec dispatch onSuccess isBlockedC s cs
  exact ⟨h.1, h.2.1, h.2.2, rfl⟩

/-- **C6, witness.**  At a concrete input (a dispatcher that always fails),
the force pass makes no progress and leaves the list unchanged. -/
theorem c6_force_pass_witness :
    (runSolverPass (fun (u : Unit) _ => (u, false)) (fun u _ => u) (fun _ _ => false)
        true () [3, 4]).2.1 = [3, 4] :=
  (c6_force_pass (fun (u : Unit) _ => (u, false)) (fun u _ => u) (fun _ _ => false)
      () [3, 4]).2.1 rfl

/-- **C8.**  A `FunctionCall` constraint whose followed callee is the
`error` type (and which carries no outstanding free-type references) binds
the result pack to the error type pack and returns `true`; a `never` callee
binds it to the never type pack; in both cases the outcome is independent
of the rest of the handler (`rest` arbitrary), i.e. no overload resolution
or unification is attempted. -/
theorem c8_call_error_never (bt : Builtins)
    (rest rest' : SolverState → SolverState × Bool)
    (s : SolverState) (cref : Nat) (c : FunctionCallConstraint)
    (hres : s.unresolvedConstraints (s.arena.follow c.fn) = 0)
    (hrange : c.result < s.arena.packs.length) :
    (s.arena.getType (s.arena.follow c.fn) = .errorT →
      ((tryDispatchFunctionCall bt rest s cref c).1.arena.getPack c.result
          = .boundP bt.errorTypePack ∧
        (tryDispatchFunctionCall bt rest s cref c).2 = true ∧
        tryDispatchFunctionCall bt rest s cref c
          = tryDispatchFunctionCall bt rest' s cref c)) ∧
    (s.arena.getType (s.arena.follow c.fn) = .neverT →
      ((tryDispatchFunctionCall bt rest s cref c).1.arena.getPack c.result
          = .boundP bt.neverTypePack ∧
        (tryDispatchFunctionCall bt rest s cref c).2 = true ∧
        tryDispatchFunctionCall bt rest s cref c
          = tryDispatchFunctionCall bt rest' s cref c)) := by
  constructor
  · intro hfn
    have hfollow : s.arena.follow (s.arena.follow c.fn) = s.arena.follow c.fn :=
      follow_stable _ _ (by intro d hcontra; rw [hfn] at hcontra; cases hcontra)
    have hblocked :
        isBlockedTy s.arena s.uninhabitedTypeFamilies (s.arena.follow c.fn) = false := by
      unfold isBlockedTy
      rw [hfollow, hfn]
    have hunres : hasUnresolvedConstraints s (s.arena.follow c.fn) = false := by
      simp [hasUnresolvedConstraints, hres]
    refine ⟨?_, ?_, ?_⟩ <;>
      simp [tryDispatchFunctionCall, hblocked, hunres, hfn, unblock_,
        getPack_setPack_self _ _ _ hrange]
  · intro hfn
    have hfollow : s.arena.follow (s.arena.follow c.fn) = s.arena.follow c.fn :=
      follow_stable _ _ (by intro d hcontra; rw [hfn] at hcontra; cases hcontra)
    have hblocked :
        isBlockedTy s.arena s.uninhabitedTypeFamilies (s.arena.follow c.fn) = false := by
      unfold isBlockedTy
      rw [hfollow, hfn]
    have hunres : hasUnresolvedConstraints s (s.arena.follow c.fn) = false := by
      simp [hasUnresolvedConstraints, hres]
    refine ⟨?_, ?_, ?_⟩ <;>
      simp [tryDispatchFunctionCall, hblocked, hunres, hfn, unblock_,
        getPack_setPack_self _ _ _ hrange]

/-- **C8, witness.**  Calling the concrete `error` callee binds the result
pack (index 0) to the error type pack. -/
theorem c8_call_error_never_witness :
    (tryDispatchFunctionCall ⟨0, 1, 0, 1⟩ (fun s => (s, false))
        { arena := c8Arena } 0 ⟨0, 1, 0⟩).1.arena.getPack 0 = .boundP 0 :=
  ((c8_call_error_never ⟨0, 1, 0, 1⟩ (fun s => (s, false)) (fun s => (s, true))
      { arena := c8Arena } 0 ⟨0, 1, 0⟩ rfl (by decide)).1 (by decide)).1

end LuauSolver

namespace LuauSolver

/-! ## Theorems for claims C1 and C7 -/

/-- **C1, counterexample.**  A `TypeFamilyInstance` interned in
`uninhabitedTypeFamilies` (a non-inhabited family instance): the solver's
`isBlocked` is `false` on it, while the claim's predicate says `true`. -/
theorem c1_counterexample :
    isBlockedTy c1Arena [0] 0 = false ∧ specIsBlockedTy c1Arena [0] 0 = true := by
  decide

/-- **C1 (amended).**  `isBlocked(ty)` holds exactly when `follow(ty)` is a
`Blocked` node, a `PendingExpansion` node, a `LocalType` with
`blockCount > 0`, or a `TypeFamilyInstance` that has *not* been determined
uninhabited; for every other variant it is false. -/
theorem c1_isBlocked_characterization (a : TypeArena) (u : List Nat) (ty : Nat) :
    isBlockedTy a u ty = amendedIsBlockedTy a u ty := by
  unfold isBlockedTy amendedIsBlockedTy
  cases a.getType (a.follow ty) <;> rfl

/-- After `block_ s k c`, the constraint `c` is recorded under `k`. -/
theorem block_mem_self (s : SolverState) (k : BlockedConstraintId) (c : Nat) :
    c ∈ ((block_ s k c).1.blocked k) := by
  unfold block_
  by_cases h : c ∈ s.blocked k
  · simp [h]
  · simp [h]

/-- `block_` never removes a constraint from a key's entry. -/
theorem block_mem_mono (s : SolverState) (k : BlockedConstraintId) (c d : Nat)
    (hd : d ∈ s.blocked k) : d ∈ ((block_ s k c).1.blocked k) := by
  unfold block_
  by_cases h : c ∈ s.blocked k
  · simp [h, hd]
  · simp [h, hd]

/-- `block_` keeps every per-key entry duplicate-free. -/
theorem block_nodup (s : SolverState) (k : BlockedConstraintId) (c : Nat)
    (h : (s.blocked k).Nodup) : ((block_ s k c).1.blocked k).Nodup := by
  unfold block_
  by_cases hc : c ∈ s.blocked k
  · simp [hc, h]
  · simp only [hc, if_false]
    refine List.Nodup.append h (List.nodup_singleton c) ?_
    exact fun x hx hxc => hc (List.mem_singleton.mp hxc ▸ hx)

/-- `unblock_` decrements the counter of a recorded constraint by exactly
one (given a duplicate-free entry, as `DenseHashSet` guarantees). -/
theorem unblock_count_mem (s : SolverState) (k : BlockedConstraintId) (d : Nat)
    (hnodup : (s.blocked k).Nodup) (hd : d ∈ s.blocked k) :
    (unblock_ s k).blockedConstraints d = s.blockedConstraints d - 1 := by
  simp only [unblock_]
  rw [List.count_eq_one_of_mem hnodup hd]

/-- **C7.**  `block_` is idempotent on `(key, c)`: re-blocking a constraint
already recorded under the key changes nothing (no counter increment, index
unchanged) and reports `false`.  `unblock_` empties the key's entry and
decrements the counter of every constraint recorded under the key exactly
once (per-key entries are duplicate-free, matching the `DenseHashSet`).
Consequently two distinct constraints blocked on the same placeholder key
both appear under it and are each released exactly once when it is
unblocked. -/
theorem c7_block_unblock (s : SolverState) (k : BlockedConstraintId) (c c₁ c₂ : Nat)
    (hmem : c ∈ s.blocked k)
    (hnodup : (s.blocked k).Nodup) :
    block_ s k c = (s, false) ∧
    (unblock_ s k).blocked k = [] ∧
    (∀ d ∈ s.blocked k, (unblock_ s k).blockedConstraints d = s.blockedConstraints d - 1) ∧
    (∀ d, d ∉ s.blocked k → (unblock_ s k).blockedConstraints d = s.blockedConstraints d) ∧
    (let s₁ := (block_ (block_ s k c₁).1 k c₂).1
     c₁ ∈ s₁.blocked k ∧ c₂ ∈ s₁.blocked k ∧
     ((s₁.blocked k).Nodup →
       (unblock_ s₁ k).blockedConstraints c₁ = s₁.blockedConstraints c₁ - 1 ∧
       (unblock_ s₁ k).blockedConstraints c₂ = s₁.blockedConstraints c₂ - 1)) := by
  refine ⟨?_, ?_, ?_, ?_, ?_⟩
  · simp [block_, hmem]
  · simp [unblock_]
  · intro d hd
    exact unblock_count_mem s k d hnodup hd
  · intro d hd
    simp only [unblock_]
    rw [List.count_eq_zero.mpr hd]
    rfl
  · intro s₁
    have h₁ : c₁ ∈ s₁.blocked k :=
      block_mem_mono _ k c₂ c₁ (block_mem_self s k c₁)
    have h₂ : c₂ ∈ s₁.blocked k := block_mem_self _ k c₂
    exact ⟨h₁, h₂, fun hnd =>
      ⟨unblock_count_mem s₁ k c₁ hnd h₁, unblock_count_mem s₁ k c₂ hnd h₂⟩⟩

/-- **C7, witness.**  The idempotence and release facts at a concrete
state: constraint 5 is blocked on type 0; re-blocking it changes nothing. -/
theorem c7_block_unblock_witness :
    block_ c7State (.ofType 0) 5 = (c7State, false) :=
  (c7_block_unblock c7State (.ofType 0) 5 1 2 (by decide) (by decide)).1


/-- Reading back the pack just allocated by `addTypePack`. -/
theorem getPack_addTypePack (a : TypeArena) (p : LuauTypePack) :
    ((a.addTypePack p).1).getPack ((a.addTypePack p).2) = p := by
  simp [TypeArena.addTypePack, TypeArena.getPack, List.getD]

/-- Helper for C10: the pack-argument loop only appends; appended type
slots are decomposed heads of provided packs, appended pack slots are
provided packs; the slot counts never exceed the declared arities. -/
theorem satPackLoop_spec (oracle : Oracle) (arena : TypeArena) (tReq pReq : Nat) :
    ∀ (raws satT satP : List Nat),
      (∃ addT addP,
        (satPackLoop oracle arena tReq pReq raws satT satP).1 = satT ++ addT ∧
        (satPackLoop oracle arena tReq pReq raws satT satP).2 = satP ++ addP ∧
        (∀ t ∈ addT, ∃ tp ∈ raws, oracle.firstP arena tp = some t) ∧
        (∀ tp ∈ addP, tp ∈ raws)) ∧
      (satT.length ≤ tReq →
        (satPackLoop oracle arena tReq pReq raws satT satP).1.length ≤ tReq) ∧
      (satP.length ≤ pReq →
        (satPackLoop oracle arena tReq pReq raws satT satP).2.length ≤ pReq)
  | [], satT, satP => by
      refine ⟨⟨[], [], by simp [satPackLoop], by simp [satPackLoop], by simp, by simp⟩,
        ?_, ?_⟩ <;> simp [satPackLoop]
  | tp :: rest, satT, satP => by
      by_cases h1 : (satT.length < tReq && oracle.sizeP arena tp == 1 &&
          oracle.finiteP arena tp && (oracle.firstP arena tp).isSome && satP.isEmpty) = true
      · have h1' := h1
        simp only [Bool.and_eq_true, decide_eq_true_eq] at h1'
        have hlen : satT.length < tReq := h1'.1.1.1.1
        obtain ⟨t₀, ht₀⟩ := Option.isSome_iff_exists.mp h1'.1.2
        have ih := satPackLoop_spec oracle arena tReq pReq rest
          (satT ++ [(oracle.firstP arena tp).getD 0]) satP
        have heq : satPackLoop oracle arena tReq pReq (tp :: rest) satT satP
            = satPackLoop oracle arena tReq pReq rest
                (satT ++ [(oracle.firstP arena tp).getD 0]) satP := by
          rw [satPackLoop, if_pos h1]
        rw [heq]
        obtain ⟨⟨addT, addP, hT, hP, hmT, hmP⟩, hlenT, hlenP⟩ := ih
        refine ⟨⟨(oracle.firstP arena tp).getD 0 :: addT, addP, ?_, hP, ?_, ?_⟩, ?_, hlenP⟩
        · rw [hT, List.append_assoc]
          rfl
        · intro t ht
          rcases List.mem_cons.mp ht with rfl | ht
          · exact ⟨tp, List.mem_cons_self _ _, by rw [ht₀]; rfl⟩
          · obtain ⟨tp', htp', hfst⟩ := hmT t ht
            exact ⟨tp', List.mem_cons_of_mem _ htp', hfst⟩
        · exact fun q hq => List.mem_cons_of_mem _ (hmP q hq)
        · intro _
          refine hlenT ?_
          simp only [List.length_append, List.length_singleton]
          omega
      · by_cases h2 : satP.length < pReq
        · have ih := satPackLoop_spec oracle arena tReq pReq rest satT (satP ++ [tp])
          have heq : satPackLoop oracle arena tReq pReq (tp :: rest) satT satP
              = satPackLoop oracle arena tReq pReq rest satT (satP ++ [tp]) := by
            rw [satPackLoop, if_neg h1, if_pos h2]
          rw [heq]
          obtain ⟨⟨addT, addP, hT, hP, hmT, hmP⟩, hlenT, hlenP⟩ := ih
          refine ⟨⟨addT, tp :: addP, hT, ?_, ?_, ?_⟩, hlenT, ?_⟩
          · rw [hP, List.append_assoc]
            rfl
          · intro t ht
            obtain ⟨tp', htp', hfst⟩ := hmT t ht
            exact ⟨tp', List.mem_cons_of_mem _ htp', hfst⟩
          · intro q hq
            rcases List.mem_cons.mp hq with rfl | hq
            · exact List.mem_cons_self _ _
            · exact List.mem_cons_of_mem _ (hmP q hq)
          · intro _
            refine hlenP ?_
            simp only [List.length_append, List.length_singleton]
            omega
        · have ih := satPackLoop_spec oracle arena tReq pReq rest satT satP
          have heq : satPackLoop oracle arena tReq pReq (tp :: rest) satT satP
              = satPackLoop oracle arena tReq pReq rest satT satP := by
            rw [satPackLoop, if_neg h1, if_neg h2]
          rw [heq]
          obtain ⟨⟨addT, addP, hT, hP, hmT, hmP⟩, hlenT, hlenP⟩ := ih
          refine ⟨⟨addT, addP, hT, hP, ?_, ?_⟩, hlenT, hlenP⟩
          · intro t ht
            obtain ⟨tp', htp', hfst⟩ := hmT t ht
            exact ⟨tp', List.mem_cons_of_mem _ htp', hfst⟩
          · exact fun q hq => List.mem_cons_of_mem _ (hmP q hq)

/-- Helper for C10: the type-defaults loop appends at most one entry per
remaining parameter, each an instantiated default (with error-recovery
fallback). -/
theorem typeDefaultsLoop_spec (oracle : Oracle) (err : Nat) :
    ∀ (arena : TypeArena) (atfT atfP : List (Nat × Nat))
      (params : List GenericTypeDefinition),
      (typeDefaultsLoop oracle err arena atfT atfP params).2.2.length ≤ params.length ∧
      ∀ t ∈ (typeDefaultsLoop oracle err arena atfT atfP params).2.2,
        ∃ p ∈ params, ∃ d, p.defaultValue = some d ∧
          ∃ a aT aP, t = (oracle.substitute a aT aP d).2.getD err
  | arena, atfT, atfP, [] => by simp [typeDefaultsLoop]
  | arena, atfT, atfP, p :: rest => by
      cases hd : p.defaultValue with
      | none => simp [typeDefaultsLoop, hd]
      | some d =>
        have ih := typeDefaultsLoop_spec oracle err (oracle.substitute arena atfT atfP d).1
          (atfT ++ [(p.ty, (oracle.substitute arena atfT atfP d).2.getD err)]) atfP rest
        constructor
        · simp only [typeDefaultsLoop, hd, List.length_cons]
          exact Nat.succ_le_succ ih.1
        · intro t ht
          simp only [typeDefaultsLoop, hd, List.mem_cons] at ht
          rcases ht with rfl | ht
          · exact ⟨p, List.mem_cons_self _ _, d, hd, arena, atfT, atfP, rfl⟩
          · obtain ⟨q, hq, d', hd', a, aT, aP, heq⟩ := ih.2 t ht
            exact ⟨q, List.mem_cons_of_mem _ hq, d', hd', a, aT, aP, heq⟩

/-- Helper for C10: the pack-defaults loop, analogously. -/
theorem packDefaultsLoop_spec (oracle : Oracle) (err : Nat) :
    ∀ (arena : TypeArena) (atfT atfP : List (Nat × Nat))
      (params : List GenericTypePackDefinition),
      (packDefaultsLoop oracle err arena atfT atfP params).2.2.length ≤ params.length ∧
      ∀ t ∈ (packDefaultsLoop oracle err arena atfT atfP params).2.2,
        ∃ p ∈ params, ∃ d, p.defaultValue = some d ∧
          ∃ a aT aP, t = (oracle.substitutePack a aT aP d).2.getD err
  | arena, atfT, atfP, [] => by simp [packDefaultsLoop]
  | arena, atfT, atfP, p :: rest => by
      cases hd : p.defaultValue with
      | none => simp [packDefaultsLoop, hd]
      | some d =>
        have ih := packDefaultsLoop_spec oracle err
          (oracle.substitutePack arena atfT atfP d).1 atfT
          (atfP ++ [(p.tp, (oracle.substitutePack arena atfT atfP d).2.getD err)]) rest
        constructor
        · simp only [packDefaultsLoop, hd, List.length_cons]
          exact Nat.succ_le_succ ih.1
        · intro t ht
          simp only [packDefaultsLoop, hd, List.mem_cons] at ht
          rcases ht with rfl | ht
          · exact ⟨p, List.mem_cons_self _ _, d, hd, arena, atfT, atfP, rfl⟩
          · obtain ⟨q, hq, d', hd', a, aT, aP, heq⟩ := ih.2 t ht
            exact ⟨q, List.mem_cons_of_mem _ hq, d', hd', a, aT, aP, heq⟩

/-- Helper for C10: the default phase only appends, within the declared
arities, and every appended slot is an instantiated default. -/
theorem saturateDefaults_spec (oracle : Oracle) (errTy errPack : Nat) (fn : TypeFun)
    (arena : TypeArena) (satT satP : List Nat) :
    ∃ addT addP,
      (saturateDefaults oracle errTy errPack fn arena satT satP).2.1 = satT ++ addT ∧
      (saturateDefaults oracle errTy errPack fn arena satT satP).2.2 = satP ++ addP ∧
      addT.length ≤ fn.typeParams.length - satT.length ∧
      addP.length ≤ fn.typePackParams.length - satP.length ∧
      (∀ t ∈ addT, ∃ p ∈ fn.typeParams, ∃ d, p.defaultValue = some d ∧
        ∃ a aT aP, t = (oracle.substitute a aT aP d).2.getD errTy) ∧
      (∀ tp ∈ addP, ∃ p ∈ fn.typePackParams, ∃ d, p.defaultValue = some d ∧
        ∃ a aT aP, tp = (oracle.substitutePack a aT aP d).2.getD errPack) := by
  unfold saturateDefaults
  by_cases h : ((satT.length < fn.typeParams.length && satP.length == 0)
      || (satT.length == fn.typeParams.length &&
          satP.length < fn.typePackParams.length)) = true
  · simp only [h, if_pos]
    have hT := typeDefaultsLoop_spec oracle errTy arena
      ((fn.typeParams.zip satT).map fun pt => (pt.1.ty, pt.2)) []
      (fn.typeParams.drop satT.length)
    set rT := typeDefaultsLoop oracle errTy arena
      ((fn.typeParams.zip satT).map fun pt => (pt.1.ty, pt.2)) []
      (fn.typeParams.drop satT.length) with hrT
    have hP := packDefaultsLoop_spec oracle errPack rT.1 rT.2.1
      ((fn.typePackParams.zip satP).map fun pt => (pt.1.tp, pt.2))
      (fn.typePackParams.drop satP.length)
    set rP := packDefaultsLoop oracle errPack rT.1 rT.2.1
      ((fn.typePackParams.zip satP).map fun pt => (pt.1.tp, pt.2))
      (fn.typePackParams.drop satP.length) with hrP
    refine ⟨rT.2.2, rP.2.2, rfl, rfl, ?_, ?_, ?_, ?_⟩
    · calc rT.2.2.length ≤ (fn.typeParams.drop satT.length).length := hT.1
        _ = fn.typeParams.length - satT.length := List.length_drop _ _
    · calc rP.2.2.length ≤ (fn.typePackParams.drop satP.length).length := hP.1
        _ = fn.typePackParams.length - satP.length := List.length_drop _ _
    · intro t ht
      obtain ⟨p, hp, d, hd, a, aT, aP, heq⟩ := hT.2 t ht
      exact ⟨p, List.drop_subset _ _ hp, d, hd, a, aT, aP, heq⟩
    · intro tp htp
      obtain ⟨p, hp, d, hd, a, aT, aP, heq⟩ := hP.2 tp htp
      exact ⟨p, List.drop_subset _ _ hp, d, hd, a, aT, aP, heq⟩
  · simp only [h, if_neg, Bool.false_eq_true, not_false_iff]
    exact ⟨[], [], by simp, by simp, by simp, by simp, by simp, by simp⟩

/-- Helper for C10: the overflow pack is either absent or the single fresh
pack allocated from the input arena (and then pack parameters exist). -/
theorem saturateExtraPack_spec (arena : TypeArena) (fn : TypeFun) (extraTypes : List Nat) :
    (saturateExtraPack arena fn extraTypes).2 = [] ∨
    ((saturateExtraPack arena fn extraTypes).2 = [arena.packs.length] ∧
      fn.typePackParams ≠ []) := by
  unfold saturateExtraPack
  by_cases h : (!extraTypes.isEmpty && !fn.typePackParams.isEmpty) = true
  · right
    simp only [h, if_pos]
    simp only [Bool.and_eq_true, Bool.not_eq_true', List.isEmpty_eq_false] at h
    exact ⟨rfl, by simpa [List.isEmpty_iff] using h.2⟩
  · left
    simp [h]

/-- Helper for C10: the empty-pack phase either leaves everything unchanged
or appends one freshly allocated empty pack when exactly the final pack
slot is missing. -/
theorem saturateEmptyPack_spec (fn : TypeFun) (extraTypes : List Nat)
    (arena : TypeArena) (satP : List Nat) :
    saturateEmptyPack fn extraTypes arena satP = (arena, satP) ∨
    (satP.length + 1 = fn.typePackParams.length ∧
      (saturateEmptyPack fn extraTypes arena satP).2 = satP ++ [arena.packs.length] ∧
      ((saturateEmptyPack fn extraTypes arena satP).1).getPack arena.packs.length
        = .packP [] none) := by
  unfold saturateEmptyPack
  by_cases h : (extraTypes.isEmpty && satP.length + 1 == fn.typePackParams.length) = true
  · right
    simp only [h, if_pos]
    simp only [Bool.and_eq_true, beq_iff_eq] at h
    exact ⟨h.2, rfl, getPack_addTypePack arena (.packP [] none)⟩
  · left
    simp [h]

/-- **C10 (amended).**  For every alias scheme and every pair of raw
argument lists, `saturateArguments` returns vectors of lengths exactly
`fn.typeParams.length` and `fn.typePackParams.length`.  Every type slot is
a provided argument, the decomposed head of a provided single-element pack,
an instantiated default, or the error-recovery type; every pack slot is a
provided pack, the fresh pack collecting overflow type arguments, an
instantiated default, a fresh empty pack (when exactly the trailing pack
slot was missing and nothing overflowed), or the error-recovery pack. -/
theorem c10_saturateArguments (oracle : Oracle) (arena : TypeArena) (errTy errPack : Nat)
    (fn : TypeFun) (rawT rawP : List Nat) :
    (saturateArguments oracle arena errTy errPack fn rawT rawP).2.1.length
        = fn.typeParams.length ∧
    (saturateArguments oracle arena errTy errPack fn rawT rawP).2.2.length
        = fn.typePackParams.length ∧
    (∀ t ∈ (saturateArguments oracle arena errTy errPack fn rawT rawP).2.1,
      t ∈ rawT ∨
      (∃ tp ∈ rawP, ∃ a, oracle.firstP a tp = some t) ∨
      (∃ p ∈ fn.typeParams, ∃ d, p.defaultValue = some d ∧
        ∃ a aT aP, t = (oracle.substitute a aT aP d).2.getD errTy) ∨
      t = errTy) ∧
    (∀ tp ∈ (saturateArguments oracle arena errTy errPack fn rawT rawP).2.2,
      tp ∈ rawP ∨
      tp = arena.packs.length ∨
      (∃ p ∈ fn.typePackParams, ∃ d, p.defaultValue = some d ∧
        ∃ a aT aP, tp = (oracle.substitutePack a aT aP d).2.getD errPack) ∨
      (saturateArguments oracle arena errTy errPack fn rawT rawP).1.getPack tp
        = .packP [] none ∨
      tp = errPack) := by
  set sat0 := rawT.take fn.typeParams.length with hsat0
  set extraTypes := rawT.drop fn.typeParams.length with hextra
  set step1 := saturateExtraPack arena fn extraTypes with hstep1
  set step2 := satPackLoop oracle step1.1 fn.typeParams.length fn.typePackParams.length
    rawP sat0 step1.2 with hstep2
  set step3 := saturateDefaults oracle errTy errPack fn step1.1 step2.1 step2.2 with hstep3
  set step4 := saturateEmptyPack fn extraTypes step3.1 step3.2.2 with hstep4
  have hmain : saturateArguments oracle arena errTy errPack fn rawT rawP
      = (step4.1,
         step3.2.1 ++ List.replicate (fn.typeParams.length - step3.2.1.length) errTy,
         step4.2 ++ List.replicate (fn.typePackParams.length - step4.2.length) errPack) := rfl
  rw [hmain]
  have hx := saturateExtraPack_spec arena fn extraTypes
  have hloop := satPackLoop_spec oracle step1.1 fn.typeParams.length
    fn.typePackParams.length rawP sat0 step1.2
  have hdef := saturateDefaults_spec oracle errTy errPack fn step1.1 step2.1 step2.2
  have hemp := saturateEmptyPack_spec fn extraTypes step3.1 step3.2.2
  obtain ⟨⟨addT, addP, hT2, hP2, hmT2, hmP2⟩, hlenT2, hlenP2⟩ := hloop
  obtain ⟨addT3, addP3, hT3, hP3, hlT3, hlP3, hmT3, hmP3⟩ := hdef
  have hsat0len : sat0.length ≤ fn.typeParams.length := by
    rw [hsat0]
    exact le_trans (List.length_take_le _ _) (le_refl _)
  have hstep12len : step1.2.length ≤ fn.typePackParams.length := by
    rcases hx with hx0 | ⟨hx1, hxne⟩
    · rw [hx0]
      exact Nat.zero_le _
    · rw [hx1]
      simp only [List.length_singleton]
      exact List.length_pos.mpr hxne
  have hlen21 : step2.1.length ≤ fn.typeParams.length := hlenT2 hsat0len
  have hlen22 : step2.2.length ≤ fn.typePackParams.length := hlenP2 hstep12len
  have hlen31 : step3.2.1.length ≤ fn.typeParams.length := by
    rw [hT3, List.length_append]
    omega
  have hlen32 : step3.2.2.length ≤ fn.typePackParams.length := by
    rw [hP3, List.length_append]
    omega
  have hlen4 : step4.2.length ≤ fn.typePackParams.length := by
    rcases hemp with h0 | ⟨hc, h2, _⟩
    · rw [show step4.2 = step3.2.2 from by rw [hstep4, h0]]
      exact hlen32
    · rw [h2, List.length_append, List.length_singleton]
      omega
  refine ⟨?_, ?_, ?_, ?_⟩
  · simp only [List.length_append, List.length_replicate]
    omega
  · simp only [List.length_append, List.length_replicate]
    omega
  · intro t ht
    rcases List.mem_append.mp ht with ht | ht
    · rw [hT3] at ht
      rcases List.mem_append.mp ht with ht | ht
      · rw [hT2] at ht
        rcases List.mem_append.mp ht with ht | ht
        · exact Or.inl (List.take_subset _ _ (hsat0 ▸ ht))
        · obtain ⟨tp, htp, hfst⟩ := hmT2 t ht
          exact Or.inr (Or.inl ⟨tp, htp, step1.1, hfst⟩)
      · obtain ⟨p, hp, d, hd, a, aT, aP, heq⟩ := hmT3 t ht
        exact Or.inr (Or.inr (Or.inl ⟨p, hp, d, hd, a, aT, aP, heq⟩))
    · exact Or.inr (Or.inr (Or.inr (List.eq_of_mem_replicate ht)))
  · intro tp htp
    rcases List.mem_append.mp htp with htp | htp
    · rcases hemp with h0 | ⟨hc, h2, h3⟩
      · have htp' : tp ∈ step3.2.2 := by
          rw [show step4.2 = step3.2.2 from by rw [hstep4, h0]] at htp
          exact htp
        rw [hP3] at htp'
        rcases List.mem_append.mp htp' with htp' | htp'
        · rw [hP2] at htp'
          rcases List.mem_append.mp htp' with htp' | htp'
          · rcases hx with hx0 | ⟨hx1, _⟩
            · rw [hx0] at htp'
              cases htp'
            · rw [hx1] at htp'
              exact Or.inr (Or.inl (List.mem_singleton.mp htp'))
          · exact Or.inl (hmP2 tp htp')
        · obtain ⟨p, hp, d, hd, a, aT, aP, heq⟩ := hmP3 tp htp'
          exact Or.inr (Or.inr (Or.inl ⟨p, hp, d, hd, a, aT, aP, heq⟩))
      · rw [h2] at htp
        rcases List.mem_append.mp htp with htp | htp
        · rw [hP3] at htp
          rcases List.mem_append.mp htp with htp | htp
          · rw [hP2] at htp
            rcases List.mem_append.mp htp with htp | htp
            · rcases hx with hx0 | ⟨hx1, _⟩
              · rw [hx0] at htp
                cases htp
              · rw [hx1] at htp
                exact Or.inr (Or.inl (List.mem_singleton.mp htp))
            · exact Or.inl (hmP2 tp htp)
          · obtain ⟨p, hp, d, hd, a, aT, aP, heq⟩ := hmP3 tp htp
            exact Or.inr (Or.inr (Or.inl ⟨p, hp, d, hd, a, aT, aP, heq⟩))
        · have : tp = step3.1.packs.length := List.mem_singleton.mp htp
          subst this
          exact Or.inr (Or.inr (Or.inr (Or.inl h3)))
    · exact Or.inr (Or.inr (Or.inr (Or.inr (List.eq_of_mem_replicate htp))))

/-- **C10, witness.**  At a concrete alias with one defaultless type
parameter and no arguments, the single type slot is the error-recovery
type. -/
theorem c10_saturateArguments_witness :
    (98 : Nat) ∈ ([] : List Nat) ∨
    (∃ tp ∈ ([] : List Nat), ∃ a, trivialOracle.firstP a tp = some 98) ∨
    (∃ p ∈ [(⟨5, none⟩ : GenericTypeDefinition)], ∃ d, p.defaultValue = some d ∧
      ∃ a aT aP, (98 : Nat) = (trivialOracle.substitute a aT aP d).2.getD 98) ∨
    (98 : Nat) = 98 :=
  (c10_saturateArguments trivialOracle emptyArena 98 99
      { typeParams := [⟨5, none⟩], typePackParams := [], type := 0 } [] []).2.2.1
    98 (by decide)

/-- **C10, counterexample.**  With no type parameters, one defaultless pack
parameter, and no arguments, the single pack slot is filled with a freshly
allocated *empty* pack — it is not a provided argument, not a decomposed
pack, not an instantiated default (there are none), and not the
error-recovery pack (index 99). -/
theorem c10_counterexample :
    (saturateArguments trivialOracle emptyArena 98 99 c10Fn [] []).2.2 = [0] ∧
    (saturateArguments trivialOracle emptyArena 98 99 c10Fn [] []).1.getPack 0
      = .packP [] none ∧
    (0 : Nat) ∉ ([] : List Nat) ∧ (0 : Nat) ≠ 99 ∧
    (∀ p ∈ c10Fn.typePackParams, p.defaultValue = none) := by
  refine ⟨rfl, rfl, by simp, by decide, by decide⟩


/-- The `Bound`-chain unblock walk touches only the blocking index. -/
theorem unblockTypeAux_fields :
    ∀ (fuel : Nat) (s : SolverState) (seen : List Nat) (ty : Nat),
      (unblockTypeAux fuel s seen ty).arena = s.arena ∧
      (unblockTypeAux fuel s seen ty).instantiatedAliases = s.instantiatedAliases ∧
      (unblockTypeAux fuel s seen ty).errors = s.errors ∧
      (unblockTypeAux fuel s seen ty).currentModuleName = s.currentModuleName ∧
      (unblockTypeAux fuel s seen ty).pushedConstraints = s.pushedConstraints
  | 0, s, seen, ty => ⟨rfl, rfl, rfl, rfl, rfl⟩
  | fuel + 1, s, seen, ty => by
      unfold unblockTypeAux
      by_cases h : ty ∈ seen
      · rw [if_pos h]
        exact ⟨rfl, rfl, rfl, rfl, rfl⟩
      · rw [if_neg h]
        cases hg : (unblock_ s (.ofType ty)).arena.getType ty <;> simp only [hg] <;>
          first
          | exact unblockTypeAux_fields fuel (unblock_ s (.ofType ty)) (ty :: seen) _
          | exact ⟨rfl, rfl, rfl, rfl, rfl⟩

/-- `bindResult` rebinds the target and touches nothing but the blocking
index. -/
theorem bindTAEResult_fields (s : SolverState) (target result : Nat) :
    (bindTAEResult s target result).arena = s.arena.setType target (.bound result) ∧
    (bindTAEResult s target result).instantiatedAliases = s.instantiatedAliases ∧
    (bindTAEResult s target result).errors = s.errors ∧
    (bindTAEResult s target result).currentModuleName = s.currentModuleName := by
  unfold bindTAEResult unblockType
  have h := unblockTypeAux_fields
    ({ s with arena := s.arena.setType target (.bound result) }.arena.types.length + 1)
    { s with arena := s.arena.setType target (.bound result) } [] target
  exact ⟨h.1, h.2.1, h.2.2.1, h.2.2.2.1⟩

/-- The instantiation queuer touches only the pushed-constraint list. -/
theorem queuerTraverse_fields :
    ∀ (fuel : Nat) (s : SolverState) (seen worklist : List Nat),
      (queuerTraverse fuel s seen worklist).arena = s.arena ∧
      (queuerTraverse fuel s seen worklist).instantiatedAliases = s.instantiatedAliases ∧
      (queuerTraverse fuel s seen worklist).errors = s.errors ∧
      (queuerTraverse fuel s seen worklist).currentModuleName = s.currentModuleName
  | 0, s, seen, worklist => ⟨rfl, rfl, rfl, rfl⟩
  | fuel + 1, s, seen, [] => ⟨rfl, rfl, rfl, rfl⟩
  | fuel + 1, s, seen, ty :: rest => by
      unfold queuerTraverse
      by_cases h : ty ∈ seen
      · rw [if_pos h]
        exact queuerTraverse_fields fuel s seen rest
      · rw [if_neg h]
        cases hg : s.arena.getType ty <;> simp only [hg] <;>
          first
          | exact queuerTraverse_fields fuel (pushC s (.typeAliasExpansion ty))
              (ty :: seen) rest
          | exact queuerTraverse_fields fuel (pushC s (.reduce ty)) (ty :: seen) _
          | exact queuerTraverse_fields fuel s (ty :: seen) rest
          | exact queuerTraverse_fields fuel s (ty :: seen) _

/-- Looking up a signature just inserted behind a cache that missed it. -/
theorem lookupSig_append_self (cache : List (InstantiationSignature × Nat))
    (signature : InstantiationSignature) (tgt : Nat)
    (h : lookupSig cache signature = none) :
    lookupSig (cache ++ [(signature, tgt)]) signature = some tgt := by
  induction cache with
  | nil => simp [lookupSig]
  | cons e rest ih =>
    simp only [lookupSig, List.cons_append] at h ⊢
    by_cases he : (e.1 == signature) = true
    · rw [if_pos he] at h
      cases h
    · rw [if_neg he] at h ⊢
      exact ih h

/-- Every exit of `taeFinish` binds the target to some node `r`, caches
`(signature, r)`, and reports success. -/
theorem taeFinish_shape (s : SolverState) (a : TypeArena) (target x : Nat)
    (signature : InstantiationSignature) :
    ((cacheInsert (bindTAEResult { s with arena := a } target x) signature x, true)
        : SolverState × Bool).1.arena = a.setType target (.bound x) ∧
    (cacheInsert (bindTAEResult { s with arena := a } target x) signature x,
        true).1.instantiatedAliases = s.instantiatedAliases ++ [(signature, x)] ∧
    (cacheInsert (bindTAEResult { s with arena := a } target x) signature x,
        true).1.errors = s.errors ∧
    (cacheInsert (bindTAEResult { s with arena := a } target x) signature x,
        true).1.currentModuleName = s.currentModuleName := by
  have h := bindTAEResult_fields { s with arena := a } target x
  refine ⟨h.1, ?_, h.2.2.1, h.2.2.2⟩
  show (bindTAEResult { s with arena := a } target x).instantiatedAliases ++
      [(signature, x)] = s.instantiatedAliases ++ [(signature, x)]
  rw [h.2.1]

/-- Every branch of `taeFinish` ends by caching and binding one node. -/
theorem taeFinish_eq (oracle : Oracle) (s : SolverState) (target : Nat)
    (signature : InstantiationSignature) (tfType tgt : Nat) (tyA pkA : List Nat) :
    ∃ (x : Nat) (a : TypeArena),
      taeFinish oracle s target signature tfType tgt tyA pkA
        = (cacheInsert (bindTAEResult { s with arena := a } target x) signature x, true) := by
  unfold taeFinish
  cases hg : getTableType s.arena tgt with
  | none => exact ⟨tgt, s.arena, rfl⟩
  | some ttvIdx =>
    dsimp only
    by_cases hnc : (s.arena.follow tfType == tgt ||
        (getTableType s.arena tfType).isSome &&
          getTableType s.arena tfType == some ttvIdx) = true
    · simp only [if_pos hnc]
      cases hgt : s.arena.getType tgt <;>
        cases hg2 : (oracle.cloneTy s.arena tgt).1.getType (oracle.cloneTy s.arena tgt).2 <;>
          exact ⟨_, _, rfl⟩
    · simp only [if_neg hnc]
      exact ⟨_, _, rfl⟩

/-- Helper for C4: `taeFinish` always succeeds, binding the target to the
node it also caches under the signature. -/
theorem taeFinish_spec (oracle : Oracle) (s : SolverState) (target : Nat)
    (signature : InstantiationSignature) (tfType tgt : Nat) (tyA pkA : List Nat) :
    ∃ (r : Nat) (A : TypeArena),
      (taeFinish oracle s target signature tfType tgt tyA pkA).1.arena
        = A.setType target (.bound r) ∧
      (taeFinish oracle s target signature tfType tgt tyA pkA).1.instantiatedAliases
        = s.instantiatedAliases ++ [(signature, r)] ∧
      (taeFinish oracle s target signature tfType tgt tyA pkA).1.errors = s.errors ∧
      (taeFinish oracle s target signature tfType tgt tyA pkA).1.currentModuleName
        = s.currentModuleName ∧
      (taeFinish oracle s target signature tfType tgt tyA pkA).2 = true := by
  obtain ⟨x, a, heq⟩ := taeFinish_eq oracle s target signature tfType tgt tyA pkA
  refine ⟨x, a, ?_, ?_, ?_, ?_, ?_⟩ <;> rw [heq]
  · exact (taeFinish_shape s a target x signature).1
  · exact (taeFinish_shape s a target x signature).2.1
  · exact (taeFinish_shape s a target x signature).2.2.1
  · exact (taeFinish_shape s a target x signature).2.2.2


/-- The queuer leaves the arena unchanged. -/
theorem queuerRun_arena (s : SolverState) (root : Nat) :
    (queuerRun s root).arena = s.arena :=
  (queuerTraverse_fields _ s [] [root]).1

/-- The queuer leaves the alias cache unchanged. -/
theorem queuerRun_cache (s : SolverState) (root : Nat) :
    (queuerRun s root).instantiatedAliases = s.instantiatedAliases :=
  (queuerTraverse_fields _ s [] [root]).2.1

/-- **C3.**  Expanding a parameterized alias with saturated arguments that
are exactly its own declared generics (the identity substitution) binds the
expansion target to the alias's defined body type itself and reports
success; the alias cache and the error list are untouched — no
instantiation, no cloning, no cache entry. -/
theorem c3_identity_expansion (oracle : Oracle) (bt : Builtins) (scope : Scope)
    (loc : Location) (s : SolverState) (target : Nat)
    (petvPrefix : Option String) (name : String) (rawT rawP : List Nat)
    (tf : TypeFun) (a1 : TypeArena)
    (hpe : s.arena.getType (s.arena.follow target)
      = .pendingExpansion petvPrefix name rawT rawP)
    (hlook : taeLookup scope petvPrefix name = some tf)
    (hne : (tf.typeParams.isEmpty && tf.typePackParams.isEmpty) = false)
    (hocc : oracle.occursCheck s.arena target tf.type = false)
    (hsat : saturateArguments oracle s.arena bt.errorType bt.errorTypePack tf rawT rawP
      = (a1, tf.typeParams.map (·.ty), tf.typePackParams.map (·.tp))) :
    tryDispatchTAE oracle bt scope loc s target
      = (bindTAEResult { s with arena := a1 } target tf.type, true) ∧
    (tryDispatchTAE oracle bt scope loc s target).1.arena
      = a1.setType target (.bound tf.type) ∧
    (tryDispatchTAE oracle bt scope loc s target).1.instantiatedAliases
      = s.instantiatedAliases ∧
    (tryDispatchTAE oracle bt scope loc s target).1.errors = s.errors := by
  have heq : tryDispatchTAE oracle bt scope loc s target
      = (bindTAEResult { s with arena := a1 } target tf.type, true) := by
    unfold tryDispatchTAE
    simp only [hpe, hlook, hne, hocc, hsat, Bool.false_eq_true, if_false,
      beq_self_eq_true, Bool.and_self, if_true]
  have hf := bindTAEResult_fields { s with arena := a1 } target tf.type
  refine ⟨heq, ?_, ?_, ?_⟩ <;> rw [heq]
  · exact hf.1
  · exact hf.2.1
  · exact hf.2.2.1

/-- **C3, witness.**  Expanding the concrete alias `T` at its own generic
leaves the alias cache empty. -/
theorem c3_identity_expansion_witness :
    (tryDispatchTAE trivialOracle taeBuiltins c3Scope Location.default
        { arena := c3Arena } 1).1.instantiatedAliases = [] :=
  (c3_identity_expansion trivialOracle taeBuiltins c3Scope Location.default
      { arena := c3Arena } 1 none "T" [3] [] c3Tf c3Arena rfl rfl rfl rfl rfl).2.2.1

/-- **C2 (amended).**  Dispatching a `TypeAliasExpansion` whose defined
body contains a pending self-expansion of the same alias with different
saturated arguments binds the target to the error-recovery type, emits a
*Recursive type being used with different parameters* diagnostic, and
returns `true` (so the solver still terminates). -/
theorem c2_infinite_alias (oracle : Oracle) (bt : Builtins) (scope : Scope)
    (loc : Location) (s : SolverState) (target : Nat)
    (petvPrefix : Option String) (name : String) (rawT rawP : List Nat)
    (tf : TypeFun) (a1 : TypeArena) (tyArgs pkArgs : List Nat) (s2 : SolverState)
    (hpe : s.arena.getType (s.arena.follow target)
      = .pendingExpansion petvPrefix name rawT rawP)
    (hlook : taeLookup scope petvPrefix name = some tf)
    (hne : (tf.typeParams.isEmpty && tf.typePackParams.isEmpty) = false)
    (hocc : oracle.occursCheck s.arena target tf.type = false)
    (hsat : saturateArguments oracle s.arena bt.errorType bt.errorTypePack tf rawT rawP
      = (a1, tyArgs, pkArgs))
    (hsame : (tyArgs == tf.typeParams.map (·.ty) &&
      pkArgs == tf.typePackParams.map (·.tp)) = false)
    (hcache : lookupSig s.instantiatedAliases ⟨tf, tyArgs, pkArgs⟩ = none)
    (hitf : infiniteTypeFinderRun oracle bt scope ⟨tf, tyArgs, pkArgs⟩
      { s with arena := a1 } tf.type = (s2, true)) :
    tryDispatchTAE oracle bt scope loc s target
      = (reportErrorData (bindTAEResult s2 target bt.errorType)
          (.genericError "Recursive type being used with different parameters") loc,
        true) ∧
    (tryDispatchTAE oracle bt scope loc s target).1.errors
      = s2.errors ++ [(⟨loc, s2.currentModuleName,
          .genericError "Recursive type being used with different parameters"⟩ :
            LTypeError)] ∧
    (tryDispatchTAE oracle bt scope loc s target).1.arena
      = s2.arena.setType target (.bound bt.errorType) := by
  have heq : tryDispatchTAE oracle bt scope loc s target
      = (reportErrorData (bindTAEResult s2 target bt.errorType)
          (.genericError "Recursive type being used with different parameters") loc,
        true) := by
    unfold tryDispatchTAE
    simp only [hpe, hlook, hne, hocc, hsat, hsame, hcache, hitf, Bool.false_eq_true,
      if_false, if_true]
  have hf := bindTAEResult_fields s2 target bt.errorType
  refine ⟨heq, ?_, ?_⟩ <;> rw [heq]
  · show (bindTAEResult s2 target bt.errorType).errors ++ _ = _
    rw [hf.2.2.1, hf.2.2.2]
  · exact hf.1

/-- **C2, witness.**  Expanding the concrete infinite alias emits exactly
the diagnostic, at the constraint's location, tagged with the module. -/
theorem c2_infinite_alias_witness :
    (tryDispatchTAE trivialOracle taeBuiltins c2Scope Location.default
        { arena := c2Arena } 1).1.errors
      = [(⟨Location.default, "",
          .genericError "Recursive type being used with different parameters"⟩ :
            LTypeError)] :=
  (c2_infinite_alias trivialOracle taeBuiltins c2Scope Location.default
      { arena := c2Arena } 1 none "T" [2] [] c2Tf c2Arena [2] []
      { arena := c2Arena } rfl rfl rfl rfl rfl rfl rfl rfl).2.1

/-- **C2, counterexample.**  The diagnostic the code emits reads *Recursive
type being used with different parameters* — not the claim's *Recursive
type used with different parameters*. -/
theorem c2_counterexample :
    ((tryDispatchTAE trivialOracle taeBuiltins c2Scope Location.default
        { arena := c2Arena } 1).1.errors.map (·.data))
      = [.genericError "Recursive type being used with different parameters"] ∧
    TypeErrorData.genericError "Recursive type being used with different parameters"
      ≠ TypeErrorData.genericError "Recursive type used with different parameters" := by
  exact ⟨rfl, by decide⟩


/-- **C4.**  A full (non-identity, non-cached, non-infinite) alias
expansion caches the node it binds; a second `TypeAliasExpansion` with the
same `(alias, args, pack-args)` signature dispatched afterwards binds its
own target to that very same node. -/
theorem c4_cached_expansion (oracle : Oracle) (bt : Builtins) (scope : Scope)
    (loc : Location) (s : SolverState) (target : Nat)
    (petvPrefix : Option String) (name : String) (rawT rawP : List Nat)
    (tf : TypeFun) (a1 : TypeArena) (tyArgs pkArgs : List Nat) (s2 : SolverState)
    (a2 : TypeArena) (inst : Nat)
    (hpe : s.arena.getType (s.arena.follow target)
      = .pendingExpansion petvPrefix name rawT rawP)
    (hlook : taeLookup scope petvPrefix name = some tf)
    (hne : (tf.typeParams.isEmpty && tf.typePackParams.isEmpty) = false)
    (hocc : oracle.occursCheck s.arena target tf.type = false)
    (hsat : saturateArguments oracle s.arena bt.errorType bt.errorTypePack tf rawT rawP
      = (a1, tyArgs, pkArgs))
    (hsame : (tyArgs == tf.typeParams.map (·.ty) &&
      pkArgs == tf.typePackParams.map (·.tp)) = false)
    (hcache : lookupSig s.instantiatedAliases ⟨tf, tyArgs, pkArgs⟩ = none)
    (hitf : infiniteTypeFinderRun oracle bt scope ⟨tf, tyArgs, pkArgs⟩
      { s with arena := a1 } tf.type = (s2, false))
    (hsub : oracle.substitute s2.arena
      ((tf.typeParams.zip tyArgs).map fun pt => (pt.1.ty, pt.2))
      ((tf.typePackParams.zip pkArgs).map fun pt => (pt.1.tp, pt.2)) tf.type
      = (a2, some inst))
    (hpers : a2.isPersistent (a2.follow inst) = false)
    (hforeign : a2.isForeign (a2.follow inst) = false) :
    ∃ (r : Nat) (A : TypeArena),
      (tryDispatchTAE oracle bt scope loc s target).2 = true ∧
      (tryDispatchTAE oracle bt scope loc s target).1.arena
        = A.setType target (.bound r) ∧
      (tryDispatchTAE oracle bt scope loc s target).1.instantiatedAliases
        = s.instantiatedAliases ++ [(⟨tf, tyArgs, pkArgs⟩, r)] ∧
      ∀ (s1 : SolverState) (target2 : Nat) (pn2 : Option String) (name2 : String)
        (rawT2 rawP2 : List Nat) (a3 : TypeArena),
        s1 = (tryDispatchTAE oracle bt scope loc s target).1 →
        s1.arena.getType (s1.arena.follow target2)
          = .pendingExpansion pn2 name2 rawT2 rawP2 →
        taeLookup scope pn2 name2 = some tf →
        oracle.occursCheck s1.arena target2 tf.type = false →
        saturateArguments oracle s1.arena bt.errorType bt.errorTypePack tf rawT2 rawP2
          = (a3, tyArgs, pkArgs) →
        tryDispatchTAE oracle bt scope loc s1 target2
          = (bindTAEResult { s1 with arena := a3 } target2 r, true) := by
  have heq : tryDispatchTAE oracle bt scope loc s target
      = taeFinish oracle (queuerRun { s2 with arena := a2 } (a2.follow inst)) target
          ⟨tf, tyArgs, pkArgs⟩ tf.type (a2.follow inst) tyArgs pkArgs := by
    unfold tryDispatchTAE
    simp only [hpe, hlook, hne, hocc, hsat, hsame, hcache, hitf, hsub,
      Bool.false_eq_true, if_false, queuerRun_arena, hpers, hforeign,
      Bool.or_self, if_true]
  obtain ⟨r, A, harena, hcacheEq, herr, hmod, htrue⟩ :=
    taeFinish_spec oracle (queuerRun { s2 with arena := a2 } (a2.follow inst)) target
      ⟨tf, tyArgs, pkArgs⟩ tf.type (a2.follow inst) tyArgs pkArgs
  have hs2cache : s2.instantiatedAliases = s.instantiatedAliases := by
    have h := congrArg (fun p => p.1.instantiatedAliases) hitf
    exact h.symm
  have hqcache : (queuerRun { s2 with arena := a2 } (a2.follow inst)).instantiatedAliases
      = s.instantiatedAliases := by
    rw [queuerRun_cache]
    exact hs2cache
  have hd1cache : (tryDispatchTAE oracle bt scope loc s target).1.instantiatedAliases
      = s.instantiatedAliases ++ [(⟨tf, tyArgs, pkArgs⟩, r)] := by
    rw [heq, hcacheEq, hqcache]
  refine ⟨r, A, ?_, ?_, hd1cache, ?_⟩
  · rw [heq]
    exact htrue
  · rw [heq]
    exact harena
  · intro s1 target2 pn2 name2 rawT2 rawP2 a3 hs1 hpe2 hlook2 hocc2 hsat2
    have hlookup2 : lookupSig s1.instantiatedAliases ⟨tf, tyArgs, pkArgs⟩ = some r := by
      rw [hs1, hd1cache]
      exact lookupSig_append_self _ _ _ hcache
    unfold tryDispatchTAE
    simp only [hpe2, hlook2, hne, hocc2, hsat2, hsame, hlookup2,
      Bool.false_eq_true, if_false]

/-- **C4, witness.**  The concrete alias `T` expanded at `number` by two
constraints: the first dispatch caches the instantiation it binds, and the
second one (on target 5) binds to the same node. -/
theorem c4_cached_expansion_witness :
    ∃ (r : Nat) (A : TypeArena),
      (tryDispatchTAE c4Oracle taeBuiltins c4Scope Location.default
          { arena := c4Arena } 1).2 = true ∧
      (tryDispatchTAE c4Oracle taeBuiltins c4Scope Location.default
          { arena := c4Arena } 1).1.arena = A.setType 1 (.bound r) ∧
      (tryDispatchTAE c4Oracle taeBuiltins c4Scope Location.default
          { arena := c4Arena } 1).1.instantiatedAliases
        = ([] : List (InstantiationSignature × Nat)) ++ [(⟨c4Tf, [2], []⟩, r)] ∧
      ∀ (s1 : SolverState) (target2 : Nat) (pn2 : Option String) (name2 : String)
        (rawT2 rawP2 : List Nat) (a3 : TypeArena),
        s1 = (tryDispatchTAE c4Oracle taeBuiltins c4Scope Location.default
          { arena := c4Arena } 1).1 →
        s1.arena.getType (s1.arena.follow target2)
          = .pendingExpansion pn2 name2 rawT2 rawP2 →
        taeLookup c4Scope pn2 name2 = some c4Tf →
        c4Oracle.occursCheck s1.arena target2 c4Tf.type = false →
        saturateArguments c4Oracle s1.arena 0 0 c4Tf rawT2 rawP2 = (a3, [2], []) →
        tryDispatchTAE c4Oracle taeBuiltins c4Scope Location.default s1 target2
          = (bindTAEResult { s1 with arena := a3 } target2 r, true) :=
  c4_cached_expansion c4Oracle taeBuiltins c4Scope Location.default
    { arena := c4Arena } 1 none "T" [2] [] c4Tf c4Arena [2] []
    { arena := c4Arena } (c4Arena.addType (.table [("x", 2)] [] [])).1 6
    rfl rfl rfl rfl rfl rfl rfl rfl rfl rfl rfl


/-- **C5 (amended).**  For a `PrimitiveType` constraint on a type that is
still free — provided the followed expected type, if any, is neither
blocked nor a pending expansion: if more than one outstanding reference to
the free type remains in `unresolvedConstraints`, the handler blocks on it
and returns `false`; otherwise it binds the free type to the declared
primitive, except that it binds to the free type's lower bound when the
upper bound differs from the primitive and may be a singleton, or the
expected type may be a singleton. -/
theorem c5_primitive_commit (oracle : Oracle) (s : SolverState) (cref : Nat)
    (c : PrimitiveTypeConstraint) (lowerBound upperBound : Nat)
    (hexp : ((c.expectedType.map s.arena.follow).isSome &&
      (isBlockedTy s.arena s.uninhabitedTypeFamilies
          ((c.expectedType.map s.arena.follow).getD 0)
        || isPendingExpansion s.arena ((c.expectedType.map s.arena.follow).getD 0)))
      = false)
    (hfree : s.arena.getType (s.arena.follow c.freeType) = .free lowerBound upperBound) :
    (s.unresolvedConstraints c.freeType > 1 →
      tryDispatchPrimitiveType oracle s cref c
        = ((blockOnType s c.freeType cref).1, false)) ∧
    (¬ s.unresolvedConstraints c.freeType > 1 →
      tryDispatchPrimitiveType oracle s cref c
        = ({ s with arena := s.arena.setType c.freeType (.bound
            (if (upperBound != c.primitiveType &&
                  oracle.maybeSingleton s.arena upperBound)
                || ((c.expectedType.map s.arena.follow).isSome &&
                  oracle.maybeSingleton s.arena
                    ((c.expectedType.map s.arena.follow).getD 0))
              then lowerBound else c.primitiveType)) }, true)) := by
  constructor
  · intro h
    unfold tryDispatchPrimitiveType
    simp only [hexp, Bool.false_eq_true, if_false, hfree]
    rw [if_pos h]
  · intro h
    unfold tryDispatchPrimitiveType
    simp only [hexp, Bool.false_eq_true, if_false, hfree]
    rw [if_neg h]
    have hbind :
        (if upperBound != c.primitiveType && oracle.maybeSingleton s.arena upperBound then
          lowerBound
        else if (c.expectedType.map s.arena.follow).isSome &&
            oracle.maybeSingleton s.arena ((c.expectedType.map s.arena.follow).getD 0) then
          lowerBound
        else c.primitiveType)
        = (if (upperBound != c.primitiveType && oracle.maybeSingleton s.arena upperBound)
              || ((c.expectedType.map s.arena.follow).isSome &&
                oracle.maybeSingleton s.arena ((c.expectedType.map s.arena.follow).getD 0))
            then lowerBound else c.primitiveType) := by
      cases hA : (upperBound != c.primitiveType &&
          oracle.maybeSingleton s.arena upperBound) <;>
        cases hB : ((c.expectedType.map s.arena.follow).isSome &&
          oracle.maybeSingleton s.arena ((c.expectedType.map s.arena.follow).getD 0)) <;>
        simp [hA, hB]
    rw [hbind]

/-- **C5, witness.**  A free type with bounds never/unknown, no expected
type and no outstanding references is bound to the declared primitive. -/
theorem c5_primitive_commit_witness :
    tryDispatchPrimitiveType trivialOracle { arena := c5Arena } 0
        (⟨0, none, 3⟩ : PrimitiveTypeConstraint)
      = ({ arena := c5Arena.setType 0 (.bound 3) }, true) := by
  have h := (c5_primitive_commit trivialOracle { arena := c5Arena } 0 ⟨0, none, 3⟩ 1 2
    rfl rfl).2 (by decide)
  simpa using h

/-- **C5, counterexample.**  With a blocked *expected* type, the handler
blocks and returns `false` even though the free type has no outstanding
references — the claim's "otherwise it binds" does not hold. -/
theorem c5_counterexample :
    (tryDispatchPrimitiveType trivialOracle { arena := c5BlockedArena } 0
        (⟨0, some 4, 3⟩ : PrimitiveTypeConstraint)).2 = false ∧
    (tryDispatchPrimitiveType trivialOracle { arena := c5BlockedArena } 0
        (⟨0, some 4, 3⟩ : PrimitiveTypeConstraint)).1.arena.getType 0 = .free 1 2 ∧
    ({ arena := c5BlockedArena } : SolverState).unresolvedConstraints 0 = 0 :=
  ⟨rfl, rfl, rfl⟩

/-- The `Bound`-chain unblock walk leaves the error list unchanged. -/
theorem unblockType_errors (s : SolverState) (ty : Nat) :
    (unblockType s ty).errors = s.errors :=
  (unblockTypeAux_fields _ s [] ty).2.2.1

/-- The queuer leaves the error list unchanged. -/
theorem queuerRun_errors (s : SolverState) (root : Nat) :
    (queuerRun s root).errors = s.errors :=
  (queuerTraverse_fields _ s [] [root]).2.2.1

/-- `taeFinish` never reports a diagnostic. -/
theorem taeFinish_errors (oracle : Oracle) (s : SolverState) (target : Nat)
    (signature : InstantiationSignature) (tfType tgt : Nat) (tyA pkA : List Nat) :
    (taeFinish oracle s target signature tfType tgt tyA pkA).1.errors = s.errors := by
  obtain ⟨x, a, heq⟩ := taeFinish_eq oracle s target signature tfType tgt tyA pkA
  rw [heq]
  exact (taeFinish_shape s a target x signature).2.2.1


/-- **C9 (amended).**  Every diagnostic appended to the error vector by
`reportError` — and hence every diagnostic the alias-expansion handler
appends, on any input — carries the solver's current module name.  (A
non-default location is *not* guaranteed: handlers forward caller-supplied
locations unchecked.) -/
theorem c9_diagnostics_module_name (oracle : Oracle) (bt : Builtins) (scope : Scope)
    (loc : Location) (s : SolverState) (target : Nat) (data : TypeErrorData) :
    ((reportErrorData s data loc).errors
      = s.errors ++ [(⟨loc, s.currentModuleName, data⟩ : LTypeError)]) ∧
    ∀ e ∈ (tryDispatchTAE oracle bt scope loc s target).1.errors,
      e ∈ s.errors ∨ e.moduleName = s.currentModuleName := by
  refine ⟨rfl, ?_⟩
  intro e he
  unfold tryDispatchTAE at he
  split at he
  case _ petvPrefix name rawT rawP =>
    split at he
    · -- unknown symbol: diagnostic stamped with the module name
      rw [(bindTAEResult_fields _ _ _).2.2.1] at he
      simp only [reportErrorData, List.mem_append, List.mem_singleton] at he
      rcases he with he | he
      · exact Or.inl he
      · right
        rw [he]
    · split at he
      · -- parameterless alias: no diagnostic
        rw [(bindTAEResult_fields _ _ _).2.2.1] at he
        exact Or.inl he
      · split at he
        · -- occurs check failed: diagnostic stamped with the module name
          rw [(bindTAEResult_fields _ _ _).2.2.1] at he
          simp only [reportErrorData, List.mem_append, List.mem_singleton] at he
          rcases he with he | he
          · exact Or.inl he
          · right
            rw [he]
        · dsimp only at he
          split at he
          · -- identity substitution: no diagnostic
            rw [(bindTAEResult_fields _ _ _).2.2.1] at he
            exact Or.inl he
          · split at he
            · -- cached: no diagnostic
              rw [(bindTAEResult_fields _ _ _).2.2.1] at he
              exact Or.inl he
            · split at he
              · -- infinite type: diagnostic stamped with the module name
                simp only [reportErrorData, List.mem_append, List.mem_singleton] at he
                rcases he with he | he
                · rw [(bindTAEResult_fields _ _ _).2.2.1] at he
                  exact Or.inl he
                · right
                  rw [he]
                  exact (bindTAEResult_fields _ _ _).2.2.2
              · split at he
                · -- substitution failure: no diagnostic
                  rw [(bindTAEResult_fields _ _ _).2.2.1] at he
                  exact Or.inl he
                · split at he
                  · -- persistent or foreign result: no diagnostic
                    rw [(bindTAEResult_fields _ _ _).2.2.1, queuerRun_errors] at he
                    exact Or.inl he
                  · -- the clone-and-stamp tail: no diagnostic
                    rw [taeFinish_errors, queuerRun_errors] at he
                    exact Or.inl he
  · -- target no longer a pending expansion: no diagnostic
    rw [unblockType_errors] at he
    exact Or.inl he

/-- **C9, witness.**  Reporting an unknown-symbol diagnostic at some
location stamps it with the module name. -/
theorem c9_diagnostics_module_name_witness :
    (reportErrorData { arena := c9Arena, currentModuleName := "M" }
        (.unknownSymbol "Missing") Location.default).errors
      = [(⟨Location.default, "M", .unknownSymbol "Missing"⟩ : LTypeError)] :=
  (c9_diagnostics_module_name trivialOracle taeBuiltins c9Scope Location.default
    { arena := c9Arena, currentModuleName := "M" } 1 (.unknownSymbol "Missing")).1

/-- **C9, counterexample.**  Dispatching a `TypeAliasExpansion` for an
unresolvable alias on a constraint whose location is the default appends a
diagnostic whose location is the default (all-zero) location: diagnostics
do not always carry a non-default location. -/
theorem c9_counterexample :
    ((tryDispatchTAE trivialOracle taeBuiltins c9Scope Location.default
        { arena := c9Arena } 1).1.errors.map (·.location)) = [Location.default] ∧
    Location.default
      = { beginLine := 0, beginColumn := 0, endLine := 0, endColumn := 0 } :=
  ⟨rfl, rfl⟩

end LuauSolver
